import Mathlib

/-!
# Verification of the tvmaze-sync sync engine

This file is a shallow embedding, in Lean 4, of the parts of the
`tvmaze-sync` daemon relevant to the specification's claims about the
persistent show cache, the processing pipeline, the filter-hash machinery,
the operational state, the upstream client's retry loop and the sliding
window rate limiter.  Each Python definition is translated into an
executable Lean definition; theorems about those definitions settle the
claims.

Modelling conventions:
* SQLite `DATETIME` columns store ISO-8601 strings and are compared
  lexicographically; `datetime.isoformat` is strictly monotone on UTC
  datetimes, so the order structure is captured faithfully by modelling a
  stored timestamp as an `Int` (absent = `none`).  SQL `NULL` comparison
  semantics (`NULL <= x` selects nothing) are modelled explicitly on
  `Option Int`.
* Python exceptions are modelled with `Except String`.
* Machine floats appear only as opaque pass-through values in the filter
  hash; they are modelled as decimal literal strings.
-/

namespace TvmazeSync

/-! models.py `ProcessingStatus`: show processing status values. -/

namespace ProcessingStatus

def PENDING : String := "pending"

def FILTERED : String := "filtered"

def PENDING_TVDB : String := "pending_tvdb"

def ADDED : String := "added"

def EXISTS : String := "exists"

def FAILED : String := "failed"

def SKIPPED : String := "skipped"

end ProcessingStatus

/-- models.py `Decision`: processing decision for a show. -/
inductive Decision where
  | ADD
  | FILTER
  | SKIP
  | RETRY
deriving DecidableEq, Repr

/-- models.py `Show` dataclass: TV show metadata from TVMaze.  The fields
are exactly the dataclass fields, in source order.  Dates and datetimes are
modelled as `Int` (see the header comment).  Note that the dataclass has
**no** `pending_since` field; the list `Show.attrNames` below records the
attribute set for modelling Python `getattr`. -/
structure Show where
  tvmaze_id : Int
  title : String
  tvdb_id : Option Int := none
  imdb_id : Option String := none
  language : Option String := none
  country : Option String := none
  type : Option String := none
  status : Option String := none
  premiered : Option Int := none
  ended : Option Int := none
  network : Option String := none
  web_channel : Option String := none
  genres : List String := []
  runtime : Option Int := none
  processing_status : String := ProcessingStatus.PENDING
  filter_reason : Option String := none
  sonarr_series_id : Option Int := none
  added_to_sonarr_at : Option Int := none
  last_checked : Option Int := none
  tvmaze_updated_at : Option Int := none
  retry_after : Option Int := none
  retry_count : Int := 0
  error_message : Option String := none
deriving DecidableEq, Repr

/-- The attribute names of the `Show` dataclass (models.py lines 36-66),
used to model Python attribute access: reading any other attribute raises
`AttributeError`. -/
def Show.attrNames : List String :=
  ["tvmaze_id", "title", "tvdb_id", "imdb_id", "language", "country",
   "type", "status", "premiered", "ended", "network", "web_channel",
   "genres", "runtime", "processing_status", "filter_reason",
   "sonarr_series_id", "added_to_sonarr_at", "last_checked",
   "tvmaze_updated_at", "retry_after", "retry_count", "error_message"]

/-- Python `getattr(show, "pending_since")` as executed by
main.py line 474 (`show.pending_since`): succeeds only if the dataclass
has the attribute, otherwise raises `AttributeError`.  `Show` has no
`pending_since` field, so the success branch has no value to return and is
modelled by `none`. -/
def Show.getattrPendingSince (_s : Show) : Except String (Option Int) :=
  if "pending_since" ∈ Show.attrNames then Except.ok none
  else Except.error "AttributeError: pending_since"

/-- Hexadecimal digit characters, lowercase (as produced by Python's
`%04x` formatting inside `json.dumps` escapes and by `hexdigest`). -/
def hexDigit (n : Nat) : Char :=
  if n < 10 then Char.ofNat (48 + n) else Char.ofNat (87 + n)

/-- Four lowercase hex digits of `n % 0x10000`. -/
def hex4 (n : Nat) : List Char :=
  [hexDigit (n / 4096 % 16), hexDigit (n / 256 % 16),
   hexDigit (n / 16 % 16), hexDigit (n % 16)]

/-- One character of a JSON string escaped as by `json.dumps` with its
default `ensure_ascii=True`: quote and backslash get two-character
escapes, the common control characters get their short escapes, all other
control and all non-ASCII characters become `\uXXXX` (surrogate pairs
above U+FFFF), and printable ASCII passes through. -/
def jsonEscapeChar (c : Char) : List Char :=
  let n := c.toNat
  if c = '"' then ['\\', '"']
  else if c = '\\' then ['\\', '\\']
  else if n = 8 then ['\\', 'b']
  else if n = 9 then ['\\', 't']
  else if n = 10 then ['\\', 'n']
  else if n = 12 then ['\\', 'f']
  else if n = 13 then ['\\', 'r']
  else if n < 32 ∨ n > 126 then
    if n < 65536 then '\\' :: 'u' :: hex4 n
    else
      let m := n - 65536
      ('\\' :: 'u' :: hex4 (55296 + m / 1024)) ++ ('\\' :: 'u' :: hex4 (56320 + m % 1024))
  else [c]

/-- A JSON string literal: `json.dumps` applied to one Python `str`. -/
def jsonStr (s : String) : String :=
  "\"" ++ String.mk (s.data.map jsonEscapeChar).flatten ++ "\""

/-- A JSON array from already-serialized items (`json.dumps` default item
separator is a comma followed by a space). -/
def jsonArr (items : List String) : String :=
  "[" ++ String.intercalate ", " items ++ "]"

/-- `json.dumps` of a Python list of strings (used by `Show.to_db_dict`
for the `genres` column). -/
def jsonDumpsStringList (l : List String) : String :=
  jsonArr (l.map jsonStr)

/-- A row of the `shows` table (database.py SCHEMA, lines 17-44), with the
columns relevant to the sync engine (`created_at`/`updated_at` bookkeeping
columns are omitted; nothing in the claims reads them).  Unlike the `Show`
dataclass, the table **does** have a `pending_since` column. -/
structure Row where
  tvmaze_id : Int
  tvdb_id : Option Int := none
  imdb_id : Option String := none
  title : String
  language : Option String := none
  country : Option String := none
  type : Option String := none
  status : Option String := none
  premiered : Option Int := none
  ended : Option Int := none
  network : Option String := none
  web_channel : Option String := none
  genres : Option String := none
  runtime : Option Int := none
  processing_status : String := ProcessingStatus.PENDING
  filter_reason : Option String := none
  sonarr_series_id : Option Int := none
  added_to_sonarr_at : Option Int := none
  last_checked : Option Int := none
  tvmaze_updated_at : Option Int := none
  retry_after : Option Int := none
  retry_count : Int := 0
  pending_since : Option Int := none
  error_message : Option String := none
deriving DecidableEq, Repr

/-- The column names produced by `Show.to_db_dict` (models.py 193-219).
`pending_since` is **not** among them. -/
def toDbDictKeys : List String :=
  ["tvmaze_id", "tvdb_id", "imdb_id", "title", "language", "country",
   "type", "status", "premiered", "ended", "network", "web_channel",
   "genres", "runtime", "processing_status", "filter_reason",
   "sonarr_series_id", "added_to_sonarr_at", "last_checked",
   "tvmaze_updated_at", "retry_after", "retry_count", "error_message"]

/-- models.py `Show.to_db_dict` composed with the row constructed by
`INSERT OR REPLACE INTO shows (<to_db_dict keys>) VALUES (...)` in
`Database.upsert_show` (database.py 155-170): every column named in
`to_db_dict` receives the dataclass value; every other column receives its
schema default.  In particular the `pending_since` column, absent from
`to_db_dict`, is set to its default `NULL`.  `genres` is stored as a JSON
string (`json.dumps(self.genres) if self.genres else None`). -/
def Show.toRow (s : Show) : Row :=
  { tvmaze_id := s.tvmaze_id
    tvdb_id := s.tvdb_id
    imdb_id := s.imdb_id
    title := s.title
    language := s.language
    country := s.country
    type := s.type
    status := s.status
    premiered := s.premiered
    ended := s.ended
    network := s.network
    web_channel := s.web_channel
    genres := if s.genres = [] then none else some (jsonDumpsStringList s.genres)
    runtime := s.runtime
    processing_status := s.processing_status
    filter_reason := s.filter_reason
    sonarr_series_id := s.sonarr_series_id
    added_to_sonarr_at := s.added_to_sonarr_at
    last_checked := s.last_checked
    tvmaze_updated_at := s.tvmaze_updated_at
    retry_after := s.retry_after
    retry_count := s.retry_count
    pending_since := none
    error_message := s.error_message }

/-! ## database.py: the show cache

The cache is modelled as a list of rows (the daemon is the single writer,
so a plain value suffices).  `UPDATE ... WHERE tvmaze_id = ?` is modelled
by mapping a row transformer over the rows with that key. -/

/-- The `shows` table.  `tvmaze_id` is the primary key, so well-formed
databases have pairwise distinct ids. -/
def DB := List Row

/-- `UPDATE shows SET ... WHERE tvmaze_id = ?`. -/
def updateWhere (db : List Row) (id : Int) (f : Row → Row) : List Row :=
  db.map fun r => if r.tvmaze_id = id then f r else r

/-- database.py `Database.upsert_show` (155-170): `INSERT OR REPLACE` with
exactly the `to_db_dict` columns; a pre-existing row with the same primary
key is replaced wholesale, so columns not named in `to_db_dict` — in
particular `pending_since` — revert to their schema defaults. -/
def upsertShow (db : List Row) (s : Show) : List Row :=
  if db.any (fun r => r.tvmaze_id = s.tvmaze_id) then
    updateWhere db s.tvmaze_id (fun _ => s.toRow)
  else
    db ++ [s.toRow]

/-- database.py `Database.get_shows_for_retry` (243-263):
`processing_status = 'pending_tvdb' AND retry_after <= now AND
(pending_since IS NULL OR pending_since > now - abandon_after)`.
A `NULL` `retry_after` compares as unknown and is not selected. -/
def getShowsForRetry (db : List Row) (now abandonAfter : Int) : List Row :=
  let cutoff := now - abandonAfter
  db.filter fun r =>
    r.processing_status == ProcessingStatus.PENDING_TVDB &&
    (match r.retry_after with
     | some t => decide (t ≤ now)
     | none => false) &&
    (match r.pending_since with
     | none => true
     | some p => decide (p > cutoff))

/-- database.py `Database.get_shows_to_abandon` (265-284):
`processing_status = 'pending_tvdb' AND pending_since IS NOT NULL AND
pending_since <= now - abandon_after`. -/
def getShowsToAbandon (db : List Row) (now abandonAfter : Int) : List Row :=
  let cutoff := now - abandonAfter
  db.filter fun r =>
    r.processing_status == ProcessingStatus.PENDING_TVDB &&
    (match r.pending_since with
     | none => false
     | some p => decide (p ≤ cutoff))

/-- database.py `Database.mark_show_added` (380-400). -/
def markShowAdded (db : List Row) (id : Int) (sonarrSeriesId : Int) (now : Int) : List Row :=
  updateWhere db id fun r =>
    { r with
      processing_status := ProcessingStatus.ADDED
      sonarr_series_id := some sonarrSeriesId
      added_to_sonarr_at := some now
      filter_reason := none
      error_message := none }

/-- database.py `Database.mark_show_filtered` (402-417): stores the
reason as `f"{category}: {reason}"`. -/
def markShowFiltered (db : List Row) (id : Int) (reason category : String) : List Row :=
  updateWhere db id fun r =>
    { r with
      processing_status := ProcessingStatus.FILTERED
      filter_reason := some (category ++ ": " ++ reason)
      sonarr_series_id := none
      error_message := none }

/-- database.py `Database.mark_show_pending_tvdb` (419-445): sets
`pending_since = COALESCE(pending_since, now)` — i.e. the stored column
value wins whenever it is non-`NULL`. -/
def markShowPendingTvdb (db : List Row) (id : Int) (retryAfter now : Int) : List Row :=
  updateWhere db id fun r =>
    { r with
      processing_status := ProcessingStatus.PENDING_TVDB
      retry_after := some retryAfter
      pending_since := some (r.pending_since.getD now)
      error_message := some "No TVDB ID available" }

/-- database.py `Database.mark_show_failed` (447-459). -/
def markShowFailed (db : List Row) (id : Int) (errorMessage : String) : List Row :=
  updateWhere db id fun r =>
    { r with
      processing_status := ProcessingStatus.FAILED
      error_message := some errorMessage }

/-- database.py `Database.update_show_status` (461-467). -/
def updateShowStatus (db : List Row) (id : Int) (status : String) : List Row :=
  updateWhere db id fun r => { r with processing_status := status }

/-- database.py `Database.increment_retry_count` (469-481). -/
def incrementRetryCount (db : List Row) (id : Int) : List Row :=
  updateWhere db id fun r => { r with retry_count := r.retry_count + 1 }

/-! ## Decimal printing and parsing

Fixed-width zero-padded decimal fields, as used by `date.isoformat` /
`datetime.isoformat` (printing) and `fromisoformat` (parsing). -/

/-- The `w` low decimal digits of `n`, zero-padded, most significant
first (Python `%04d`-style formatting). -/
def emitNat : Nat → Nat → List Char
  | 0, _ => []
  | w + 1, n => Char.ofNat (48 + n / 10 ^ w % 10) :: emitNat w n

/-- Read exactly `w` decimal digits, accumulating onto `acc`; fails on a
non-digit or premature end of input. -/
def readNatAux : Nat → Nat → List Char → Option (Nat × List Char)
  | 0, acc, cs => some (acc, cs)
  | w + 1, acc, cs =>
    match cs with
    | [] => none
    | c :: rest =>
      if 48 ≤ c.toNat ∧ c.toNat ≤ 57 then
        readNatAux w (10 * acc + (c.toNat - 48)) rest
      else none

/-- Expect one literal character. -/
def expectChar (c : Char) : List Char → Option (List Char)
  | [] => none
  | x :: rest => if x = c then some rest else none

/-- Gregorian leap year (as validated by `datetime.date`). -/
def isLeapYear (y : Nat) : Bool :=
  y % 4 == 0 && (y % 100 != 0 || y % 400 == 0)

/-- Days in a month (as validated by `datetime.date`). -/
def daysInMonth (y m : Nat) : Nat :=
  if m = 2 then (if isLeapYear y then 29 else 28)
  else if m = 4 ∨ m = 6 ∨ m = 9 ∨ m = 11 then 30
  else 31

/-- `date.fromisoformat` on the canonical `YYYY-MM-DD` form, including
`datetime.date`'s range validation; any other input yields `none`
(modelling the raised `ValueError`).  Dates are encoded as the integer
`y * 10000 + m * 100 + d`, which is order-isomorphic to date order. -/
def parseIsoDate (s : String) : Option Int := do
  let (y, r1) ← readNatAux 4 0 s.data
  let r2 ← expectChar '-' r1
  let (m, r3) ← readNatAux 2 0 r2
  let r4 ← expectChar '-' r3
  let (d, r5) ← readNatAux 2 0 r4
  if r5 = [] ∧ 1 ≤ y ∧ 1 ≤ m ∧ m ≤ 12 ∧ 1 ≤ d ∧ d ≤ daysInMonth y m then
    some (Int.ofNat (y * 10000 + m * 100 + d))
  else none

/-! ## models.py `Show.from_tvmaze_response`

The upstream catalog record, with the fields the parser consumes, typed
according to the upstream contract (spec section 6).  `none` models a key
that is absent, `null`, or — for the `network`/`webChannel`/`country`
object fields, which the source tests with Python truthiness — falsy. -/

/-- The `country` object inside `network`/`webChannel`. -/
structure TMCountry where
  code : Option String := none
deriving DecidableEq, Repr

/-- The `network` / `webChannel` object. -/
structure TMNetwork where
  name : Option String := none
  country : Option TMCountry := none
deriving DecidableEq, Repr

/-- The `externals` object. -/
structure TMExternals where
  thetvdb : Option Int := none
  imdb : Option String := none
deriving DecidableEq, Repr

/-- A TVMaze catalog record (the keys read by
`Show.from_tvmaze_response`). -/
structure TMRecord where
  id : Option Int := none
  name : Option String := none
  language : Option String := none
  type : Option String := none
  status : Option String := none
  premiered : Option String := none
  ended : Option String := none
  runtime : Option Int := none
  genres : Option (List String) := none
  network : Option TMNetwork := none
  webChannel : Option TMNetwork := none
  externals : Option TMExternals := none
  updated : Option Int := none
deriving DecidableEq, Repr

/-- The country extraction of models.py 77-84 for one of the two network
objects: the branch is taken only when the object is present *and* its
`country` is truthy, in which case the (possibly absent) `code` is used. -/
def tmCountryBranch (o : Option TMNetwork) : Option (Option String) :=
  match o with
  | some nd =>
    match nd.country with
    | some c => some c.code
    | none => none
  | none => none

/-- `data.get("premiered")` truthiness followed by the guarded
`date.fromisoformat` of models.py 87-99: absent, empty or unparsable
strings give `None`. -/
def tmParseDate (o : Option String) : Option Int :=
  match o with
  | some s => if s = "" then none else parseIsoDate s
  | none => none

/-- models.py `Show.from_tvmaze_response` (68-117).  `data["id"]` raises
`KeyError` when the key is absent; every other access is via `.get` and
total.  `now` stands for the `datetime.now(UTC)` default of the
`last_checked` dataclass field. -/
def fromTvmazeResponse (data : TMRecord) (now : Int) : Except String Show :=
  match data.id with
  | none => Except.error "KeyError: id"
  | some i =>
    let externals := data.externals.getD {}
    let country : Option String :=
      match tmCountryBranch data.network with
      | some v => v
      | none =>
        match tmCountryBranch data.webChannel with
        | some v => v
        | none => none
    Except.ok
      { tvmaze_id := i
        tvdb_id := externals.thetvdb
        imdb_id := externals.imdb
        title := data.name.getD "Unknown"
        language := data.language
        country := country
        type := data.type
        status := data.status
        premiered := tmParseDate data.premiered
        ended := tmParseDate data.ended
        network := data.network.bind (·.name)
        web_channel := data.webChannel.bind (·.name)
        genres := data.genres.getD []
        runtime := data.runtime
        tvmaze_updated_at := data.updated
        last_checked := some now }

/-! ## config.py: filter configuration dataclasses

Float values (`FloatRange` bounds) are never compared by the code paths
modelled here (the processor's rating check always sees a `None` rating,
models.py `Show` having no `rating` attribute); in the filter hash they
are pass-through JSON number literals.  They are therefore modelled as
their decimal literal strings. -/

/-- config.py `DateRange` (39-44): ISO date strings. -/
structure DateRange where
  after : Option String := none
  before : Option String := none
deriving DecidableEq, Repr

/-- config.py `IntRange` (46-51). -/
structure IntRange where
  min : Option Int := none
  max : Option Int := none
deriving DecidableEq, Repr

/-- config.py `FloatRange` (54-59), bounds as decimal literals. -/
structure FloatRange where
  min : Option String := none
  max : Option String := none
deriving DecidableEq, Repr

/-- config.py `GlobalExclude` (61-69). -/
structure GlobalExclude where
  genres : List String := []
  types : List String := []
  languages : List String := []
  countries : List String := []
  networks : List String := []
deriving DecidableEq, Repr

/-- config.py `Selection` (74-88). -/
structure Selection where
  name : Option String := none
  languages : List String := []
  countries : List String := []
  genres : List String := []
  types : List String := []
  networks : List String := []
  status : List String := []
  premiered : Option DateRange := none
  ended : Option DateRange := none
  rating : Option FloatRange := none
  runtime : Option IntRange := none
deriving DecidableEq, Repr

/-- config.py `FiltersConfig` (91-96). -/
structure FiltersConfig where
  exclude : GlobalExclude := {}
  selections : List Selection := []
deriving DecidableEq, Repr

/-! ## processor.py `ShowProcessor`

The processor is modelled after `set_validated_sonarr_params` has been
called (main.py always calls it before any processing), so
`_build_sonarr_params` cannot raise and the Sonarr parameters — mere
pass-through configuration — are elided from the result. -/

/-- models.py `ProcessingResult` (decision, reason, filter category). -/
structure ProcessingResult where
  decision : Decision
  reason : Option String := none
  filter_category : Option String := none
deriving DecidableEq, Repr

/-- Python `sorted` on strings: code-point lexicographic order, matching
Lean's `LinearOrder String`. -/
def sortStrings (l : List String) : List String :=
  List.insertionSort (· ≤ ·) l

/-- Python `sorted(set(a) & set(b))`: the distinct common elements in
ascending order. -/
def sortedIntersection (a b : List String) : List String :=
  sortStrings ((a.filter (· ∈ b)).dedup)

/-- Python `x in l` for an optional string against a string list
(`None in l` is `False` for lists without `None`). -/
def optMem (x : Option String) (l : List String) : Bool :=
  match x with
  | some v => v ∈ l
  | none => false

/-- processor.py `ShowProcessor._matches_exclude` (96-126): returns the
reason string if the show matches any global exclude. -/
def matchesExclude (exc : GlobalExclude) (s : Show) : Option String :=
  let genreOverlap := sortedIntersection exc.genres s.genres
  if exc.genres ≠ [] ∧ s.genres ≠ [] ∧ genreOverlap ≠ [] then
    some ("Excluded genre: " ++ String.intercalate ", " genreOverlap)
  else if exc.types ≠ [] ∧ optMem s.type exc.types then
    some ("Excluded type: " ++ (s.type.getD ""))
  else if exc.languages ≠ [] ∧ optMem s.language exc.languages then
    some ("Excluded language: " ++ (s.language.getD ""))
  else if exc.countries ≠ [] ∧ optMem s.country exc.countries then
    some ("Excluded country: " ++ (s.country.getD ""))
  else if exc.networks ≠ [] ∧ optMem s.network exc.networks then
    some ("Excluded network: " ++ (s.network.getD ""))
  else none

/-- `date.fromisoformat(threshold)` inside `_matches_selection`: raises
`ValueError` on a malformed configuration bound. -/
def parseThreshold (t : String) : Except String Int :=
  match parseIsoDate t with
  | some d => Except.ok d
  | none => Except.error "ValueError: invalid isoformat string"

/-- One side of a date-range check of `_matches_selection` (161-180):
with a present bound, a `None` value or a value strictly outside the
bound fails the selection.  `cmpLt` chooses `value < threshold` (for
`after`) versus `value > threshold` (for `before`). -/
def dateBoundOk (bound : Option String) (value : Option Int) (isAfter : Bool) :
    Except String Bool := do
  match bound with
  | none => return true
  | some b =>
    let threshold ← parseThreshold b
    match value with
    | none => return false
    | some v => return (if isAfter then decide (v ≥ threshold) else decide (v ≤ threshold))

/-- processor.py `ShowProcessor._matches_selection` (128-201).  The
rating check reads `getattr(show, 'rating', None)`; the `Show` dataclass
has no `rating` attribute, so the value is always `None` and a rating
constraint with any present bound rejects every show. -/
def matchesSelection (sel : Selection) (s : Show) : Except String Bool := do
  if sel.languages ≠ [] ∧ ¬ optMem s.language sel.languages then
    return false
  if sel.countries ≠ [] ∧ ¬ optMem s.country sel.countries then
    return false
  if sel.genres ≠ [] ∧ sortedIntersection sel.genres s.genres = [] then
    return false
  if sel.types ≠ [] ∧ ¬ optMem s.type sel.types then
    return false
  if sel.networks ≠ [] ∧ ¬ optMem s.network sel.networks then
    return false
  if sel.status ≠ [] ∧ ¬ optMem s.status sel.status then
    return false
  match sel.premiered with
  | none => pure ()
  | some dr =>
    let okA ← dateBoundOk dr.after s.premiered true
    if ¬ okA then return false
    let okB ← dateBoundOk dr.before s.premiered false
    if ¬ okB then return false
  match sel.ended with
  | none => pure ()
  | some dr =>
    let okA ← dateBoundOk dr.after s.ended true
    if ¬ okA then return false
    let okB ← dateBoundOk dr.before s.ended false
    if ¬ okB then return false
  match sel.rating with
  | none => pure ()
  | some fr =>
    if fr.min.isSome ∨ fr.max.isSome then return false
  match sel.runtime with
  | none => pure ()
  | some ir =>
    match ir.min with
    | none => pure ()
    | some lo =>
      match s.runtime with
      | none => return false
      | some rt => if rt < lo then return false
    match ir.max with
    | none => pure ()
    | some hi =>
      match s.runtime with
      | none => return false
      | some rt => if rt > hi then return false
  return true

/-- The reason of an accepted selection:
`f"Matched: {selection.name or 'unnamed selection'}"` (a falsy — absent
or empty — name falls back). -/
def selectionReason (sel : Selection) : String :=
  "Matched: " ++
    (match sel.name with
     | some n => if n = "" then "unnamed selection" else n
     | none => "unnamed selection")

/-- The selection loop of `process` step 4: the first matching selection
wins; with none matching, step 5 filters the show. -/
def processSelections (s : Show) : List Selection → Except String ProcessingResult
  | [] =>
    Except.ok { decision := Decision.FILTER, reason := some "No selection matched",
                filter_category := some "selection" }
  | sel :: rest => do
    let b ← matchesSelection sel s
    if b then
      Except.ok { decision := Decision.ADD, reason := some (selectionReason sel) }
    else
      processSelections s rest

/-- processor.py `ShowProcessor.process` (48-94). -/
def process (cfg : FiltersConfig) (s : Show) : Except String ProcessingResult :=
  match s.tvdb_id with
  | none =>
    Except.ok { decision := Decision.RETRY, reason := some "No TVDB ID available",
                filter_category := some "tvdb" }
  | some _ =>
    match matchesExclude cfg.exclude s with
    | some reason =>
      Except.ok { decision := Decision.FILTER, reason := some reason,
                  filter_category := some "exclude" }
    | none =>
      if cfg.selections = [] then
        Except.ok { decision := Decision.FILTER, reason := some "No selections configured",
                    filter_category := some "selection" }
      else
        processSelections s cfg.selections

/-! ## SHA-256 (`hashlib.sha256`)

A direct implementation of FIPS 180-4 over `Nat` with explicit reduction
modulo `2^32`, used by `compute_filter_hash`. -/

namespace SHA256

def mask32 (n : Nat) : Nat := n % 4294967296

/-- 32-bit right rotation. -/
def rotr (x n : Nat) : Nat := mask32 ((x >>> n) ||| (x <<< (32 - n)))

/-- The 64 round constants (decimal). -/
def K : List Nat :=
  [1116352408, 1899447441, 3049323471, 3921009573, 961987163,
   1508970993, 2453635748, 2870763221, 3624381080, 310598401,
   607225278, 1426881987, 1925078388, 2162078206, 2614888103,
   3248222580, 3835390401, 4022224774, 264347078, 604807628,
   770255983, 1249150122, 1555081692, 1996064986, 2554220882,
   2821834349, 2952996808, 3210313671, 3336571891, 3584528711,
   113926993, 338241895, 666307205, 773529912, 1294757372,
   1396182291, 1695183700, 1986661051, 2177026350, 2456956037,
   2730485921, 2820302411, 3259730800, 3345764771, 3516065817,
   3600352804, 4094571909, 275423344, 430227734, 506948616,
   659060556, 883997877, 958139571, 1322822218, 1537002063,
   1747873779, 1955562222, 2024104815, 2227730452, 2361852424,
   2428436474, 2756734187, 3204031479, 3329325298]

/-- The initial hash value (decimal). -/
def H0 : List Nat :=
  [1779033703, 3144134277, 1013904242, 2773480762,
   1359893119, 2600822924, 528734635, 1541459225]

/-- Merkle–Damgård padding of a byte message. -/
def pad (msg : List Nat) : List Nat :=
  let len := msg.length
  let bitLen := 8 * len
  let z := (64 + 56 - ((len + 1) % 64)) % 64
  msg ++ [0x80] ++ List.replicate z 0 ++
    ((List.range 8).map fun i => bitLen >>> (8 * (7 - i)) % 256)

/-- Split into 64-byte blocks (fuelled by the list length, which bounds
the block count). -/
def chunk64Go : Nat → List Nat → List (List Nat)
  | 0, _ => []
  | _, [] => []
  | fuel + 1, l => l.take 64 :: chunk64Go fuel (l.drop 64)

/-- Split into 64-byte blocks. -/
def chunk64 (l : List Nat) : List (List Nat) :=
  chunk64Go l.length l

/-- The 16 big-endian 32-bit words of one block. -/
def wordsOfBlock (b : List Nat) : List Nat :=
  (List.range 16).map fun i =>
    b.getD (4 * i) 0 <<< 24 ||| b.getD (4 * i + 1) 0 <<< 16 |||
    b.getD (4 * i + 2) 0 <<< 8 ||| b.getD (4 * i + 3) 0

/-- Message-schedule extension: append `n` more words. -/
def scheduleGo : Nat → List Nat → List Nat
  | 0, w => w
  | n + 1, w =>
    let i := w.length
    let w15 := w.getD (i - 15) 0
    let w2 := w.getD (i - 2) 0
    let s0 := rotr w15 7 ^^^ rotr w15 18 ^^^ (w15 >>> 3)
    let s1 := rotr w2 17 ^^^ rotr w2 19 ^^^ (w2 >>> 10)
    scheduleGo n (w ++ [mask32 (w.getD (i - 16) 0 + s0 + w.getD (i - 7) 0 + s1)])

/-- Message-schedule extension of the 16 block words to 64. -/
def schedule (w16 : List Nat) : List Nat := scheduleGo 48 w16

/-- The eight working variables. -/
structure Regs where
  a : Nat
  b : Nat
  c : Nat
  d : Nat
  e : Nat
  f : Nat
  g : Nat
  h : Nat
deriving DecidableEq, Repr

/-- One compression round. -/
def round (r : Regs) (ki wi : Nat) : Regs :=
  let s1 := rotr r.e 6 ^^^ rotr r.e 11 ^^^ rotr r.e 25
  let ch := (r.e &&& r.f) ^^^ ((r.e ^^^ 0xffffffff) &&& r.g)
  let temp1 := mask32 (r.h + s1 + ch + ki + wi)
  let s0 := rotr r.a 2 ^^^ rotr r.a 13 ^^^ rotr r.a 22
  let maj := (r.a &&& r.b) ^^^ (r.a &&& r.c) ^^^ (r.b &&& r.c)
  let temp2 := mask32 (s0 + maj)
  { a := mask32 (temp1 + temp2), b := r.a, c := r.b, d := r.c,
    e := mask32 (r.d + temp1), f := r.e, g := r.f, h := r.g }

/-- The 64 rounds, driven by the zipped round constants and schedule. -/
def roundsGo : Regs → List (Nat × Nat) → Regs
  | r, [] => r
  | r, (ki, wi) :: rest => roundsGo (round r ki wi) rest

/-- Compression of one block schedule into the hash state (8 words). -/
def compress (hs : List Nat) (w : List Nat) : List Nat :=
  let r0 : Regs :=
    { a := hs.getD 0 0, b := hs.getD 1 0, c := hs.getD 2 0, d := hs.getD 3 0,
      e := hs.getD 4 0, f := hs.getD 5 0, g := hs.getD 6 0, h := hs.getD 7 0 }
  let r := roundsGo r0 (K.zip w)
  [mask32 (hs.getD 0 0 + r.a), mask32 (hs.getD 1 0 + r.b),
   mask32 (hs.getD 2 0 + r.c), mask32 (hs.getD 3 0 + r.d),
   mask32 (hs.getD 4 0 + r.e), mask32 (hs.getD 5 0 + r.f),
   mask32 (hs.getD 6 0 + r.g), mask32 (hs.getD 7 0 + r.h)]

/-- SHA-256 digest (32 bytes) of a byte message. -/
def digest (msg : List Nat) : List Nat :=
  let final := (chunk64 (pad msg)).foldl
    (fun hs bl => compress hs (schedule (wordsOfBlock bl))) H0
  (final.map fun wd =>
    [wd >>> 24 % 256, wd >>> 16 % 256, wd >>> 8 % 256, wd % 256]).flatten

end SHA256

/-- Two lowercase hex digits of a byte. -/
def hexByte (b : Nat) : List Char := [hexDigit (b / 16 % 16), hexDigit (b % 16)]

/-- The characters of `hashlib.sha256(text.encode()).hexdigest()` for
ASCII `text` (UTF-8 encoding is the identity on ASCII code points; the
canonical JSON built by `compute_filter_hash` is pure ASCII thanks to
`ensure_ascii=True`). -/
def sha256HexChars (s : String) : List Char :=
  ((SHA256.digest (s.data.map Char.toNat)).map hexByte).flatten

/-- `hashlib.sha256(text.encode()).hexdigest()` for ASCII `text`. -/
def sha256HexAscii (s : String) : String :=
  String.mk (sha256HexChars s)

/-! ## processor.py `compute_filter_hash` (220-271)

`json.dumps(filter_dict, sort_keys=True)` with default separators emits
object keys in ascending string order, `", "` between members and
`": "` after keys.  The serializers below write each dictionary literally
with its keys already in sorted order (the sort is over the fixed key
sets of the dictionaries built at processor.py 228-268). -/

/-- A JSON value for an optional string. -/
def jsonOptStr : Option String → String
  | some s => jsonStr s
  | none => "null"

/-- A JSON value for an optional number kept as its decimal literal
(Python float `repr`). -/
def jsonOptNum : Option String → String
  | some s => s
  | none => "null"

/-- A JSON value for an optional integer. -/
def jsonOptInt : Option Int → String
  | some i => toString i
  | none => "null"

/-- `json.dumps(sorted(l))` for a string list. -/
def jsonSortedStrList (l : List String) : String :=
  jsonArr ((sortStrings l).map jsonStr)

/-- The `exclude_dict` of processor.py 228-234, keys sorted. -/
def serializeExclude (exc : GlobalExclude) : String :=
  "\x7b\"countries\": " ++ jsonSortedStrList exc.countries ++
  ", \"genres\": " ++ jsonSortedStrList exc.genres ++
  ", \"languages\": " ++ jsonSortedStrList exc.languages ++
  ", \"networks\": " ++ jsonSortedStrList exc.networks ++
  ", \"types\": " ++ jsonSortedStrList exc.types ++ "\x7d"

/-- The two-key range dict `{"after": ..., "before": ...}` (absent range
object contributes nulls). -/
def serializeDateRange (o : Option DateRange) : String :=
  "\x7b\"after\": " ++ jsonOptStr (o.bind (·.after)) ++
  ", \"before\": " ++ jsonOptStr (o.bind (·.before)) ++ "\x7d"

/-- The two-key range dict `{"max": ..., "min": ...}` for float bounds. -/
def serializeFloatRange (o : Option FloatRange) : String :=
  "\x7b\"max\": " ++ jsonOptNum (o.bind (·.max)) ++
  ", \"min\": " ++ jsonOptNum (o.bind (·.min)) ++ "\x7d"

/-- The two-key range dict `{"max": ..., "min": ...}` for int bounds. -/
def serializeIntRange (o : Option IntRange) : String :=
  "\x7b\"max\": " ++ jsonOptInt (o.bind (·.max)) ++
  ", \"min\": " ++ jsonOptInt (o.bind (·.min)) ++ "\x7d"

/-- The `sel_dict` of processor.py 238-262, keys sorted. -/
def serializeSelection (sel : Selection) : String :=
  "\x7b\"countries\": " ++ jsonSortedStrList sel.countries ++
  ", \"ended\": " ++ serializeDateRange sel.ended ++
  ", \"genres\": " ++ jsonSortedStrList sel.genres ++
  ", \"languages\": " ++ jsonSortedStrList sel.languages ++
  ", \"name\": " ++ jsonOptStr sel.name ++
  ", \"networks\": " ++ jsonSortedStrList sel.networks ++
  ", \"premiered\": " ++ serializeDateRange sel.premiered ++
  ", \"rating\": " ++ serializeFloatRange sel.rating ++
  ", \"runtime\": " ++ serializeIntRange sel.runtime ++
  ", \"status\": " ++ jsonSortedStrList sel.status ++
  ", \"types\": " ++ jsonSortedStrList sel.types ++ "\x7d"

/-- `json.dumps(filter_dict, sort_keys=True)` of processor.py 265-270. -/
def canonicalFilterJson (cfg : FiltersConfig) : String :=
  "\x7b\"exclude\": " ++ serializeExclude cfg.exclude ++
  ", \"selections\": " ++ jsonArr (cfg.selections.map serializeSelection) ++ "\x7d"

/-- processor.py `compute_filter_hash` (220-271):
`sha256(serialized.encode()).hexdigest()[:16]` (string slicing is
character-prefix extraction, expressed over the character list). -/
def computeFilterHash (cfg : FiltersConfig) : String :=
  String.mk ((sha256HexChars (canonicalFilterJson cfg)).take 16)

/-! ## processor.py `check_filter_change` / `re_evaluate_filtered_shows`

Re-evaluation reads shows through `Database.get_all_filtered_shows`
(a snapshot of rows with `processing_status = 'filtered'`, surfaced as
parsed `Show` values) and issues per-show `UPDATE`s.  The cache is
modelled here at the `Show` level: a list of parsed rows, with the two
`UPDATE` helpers restated on that representation. -/

/-- `Database.update_show_status` viewed through `from_db_row`. -/
def updateStatusShows (db : List Show) (id : Int) (status : String) : List Show :=
  db.map fun s => if s.tvmaze_id = id then { s with processing_status := status } else s

/-- `Database.mark_show_filtered` viewed through `from_db_row`. -/
def markFilteredShows (db : List Show) (id : Int) (reason category : String) : List Show :=
  db.map fun s =>
    if s.tvmaze_id = id then
      { s with
        processing_status := ProcessingStatus.FILTERED
        filter_reason := some (category ++ ": " ++ reason)
        sonarr_series_id := none
        error_message := none }
    else s

/-- The loop body of `re_evaluate_filtered_shows` (processor.py 297-325)
over the snapshot of filtered shows. -/
def reEvaluateGo (cfg : FiltersConfig) :
    List Show → List Show → Nat → Except String (List Show × Nat)
  | [], db, changed => Except.ok (db, changed)
  | s :: rest, db, changed => do
    let result ← process cfg s
    match result.decision with
    | Decision.ADD =>
      reEvaluateGo cfg rest
        (updateStatusShows db s.tvmaze_id ProcessingStatus.PENDING) (changed + 1)
    | Decision.FILTER =>
      if result.reason ≠ s.filter_reason then
        reEvaluateGo cfg rest
          (markFilteredShows db s.tvmaze_id (result.reason.getD "")
            (result.filter_category.getD "")) changed
      else
        reEvaluateGo cfg rest db changed
    | _ => reEvaluateGo cfg rest db changed

/-- processor.py `re_evaluate_filtered_shows` (297-325): returns the
updated cache and the count of shows that now pass. -/
def reEvaluateFilteredShows (cfg : FiltersConfig) (db : List Show) :
    Except String (List Show × Nat) :=
  reEvaluateGo cfg
    (db.filter fun s => s.processing_status == ProcessingStatus.FILTERED) db 0

/-- processor.py `check_filter_change` (274-294), with
`state.last_filter_hash` threaded explicitly (a stored hash is either
absent or a 16-character hex string, so Python truthiness coincides with
`Option` matching).  Returns the new stored hash, the updated cache and
the re-evaluation count. -/
def checkFilterChange (lastFilterHash : Option String) (cfg : FiltersConfig)
    (db : List Show) : Except String (Option String × List Show × Nat) :=
  let currentHash := computeFilterHash cfg
  match lastFilterHash with
  | some h =>
    if h ≠ currentHash then do
      let (db', count) ← reEvaluateFilteredShows cfg db
      return (some currentHash, db', count)
    else
      return (some currentHash, db, 0)
  | none => return (some currentHash, db, 0)

/-! ## state.py: operational state

Every datetime the state file ever holds is produced by
`datetime.now(UTC)`, an aware UTC value; `isoformat` renders it as
`YYYY-MM-DDTHH:MM:SS[.ffffff]+00:00` (the fractional part omitted when
`microsecond == 0`) and `fromisoformat` parses that form back exactly.
`DateTime` models such a value; the field bounds are the widths of the
printed fields (Python's actual ranges are narrower, e.g. `month ≤ 12`,
so every Python value is covered). -/

/-- An aware UTC `datetime` as persisted by state.py. -/
structure DateTime where
  year : Fin 10000
  month : Fin 100
  day : Fin 100
  hour : Fin 100
  minute : Fin 100
  second : Fin 100
  microsecond : Fin 1000000
deriving DecidableEq, Repr

/-- `datetime.isoformat` on an aware UTC value (the list is written
right-nested, in the order a parser consumes it). -/
def DateTime.toIso (d : DateTime) : String :=
  String.mk
    (emitNat 4 d.year ++ ('-' :: (emitNat 2 d.month ++ ('-' :: (emitNat 2 d.day ++
     ('T' :: (emitNat 2 d.hour ++ (':' :: (emitNat 2 d.minute ++ (':' :: (emitNat 2 d.second ++
     ((if d.microsecond.val = 0 then [] else '.' :: emitNat 6 d.microsecond) ++
      ['+', '0', '0', ':', '0', '0']))))))))))))

/-- The optional `.ffffff` fraction: a leading dot demands six digits,
anything else leaves `microsecond = 0`. -/
def parseFraction : List Char → Option (Nat × List Char)
  | '.' :: rest => readNatAux 6 0 rest
  | other => some (0, other)

/-- Assemble a parsed `DateTime`.  Each `readNatAux w` value is below
`10 ^ w` by construction, so the `%` here is the identity on every value
the parser produces. -/
def mkDT (y mo dd hr mi sec us : Nat) : DateTime :=
  ⟨⟨y % 10000, Nat.mod_lt _ (by norm_num)⟩,
   ⟨mo % 100, Nat.mod_lt _ (by norm_num)⟩,
   ⟨dd % 100, Nat.mod_lt _ (by norm_num)⟩,
   ⟨hr % 100, Nat.mod_lt _ (by norm_num)⟩,
   ⟨mi % 100, Nat.mod_lt _ (by norm_num)⟩,
   ⟨sec % 100, Nat.mod_lt _ (by norm_num)⟩,
   ⟨us % 1000000, Nat.mod_lt _ (by norm_num)⟩⟩

/-- The tail of the parse: the remaining input must be exactly the
`+00:00` offset. -/
def finishIso (y mo dd hr mi sec : Nat) (pus : Nat × List Char) : Option DateTime :=
  if pus.2 = ['+', '0', '0', ':', '0', '0'] then
    some (mkDT y mo dd hr mi sec pus.1)
  else none

/-- `datetime.fromisoformat` restricted to the canonical aware-UTC forms
that `isoformat` emits (Python's parser accepts further ISO-8601
variants; `state.py` only ever feeds it strings of this shape). -/
def DateTime.fromIso (s : String) : Option DateTime :=
  (readNatAux 4 0 s.data).bind fun py =>
  (expectChar '-' py.2).bind fun r2 =>
  (readNatAux 2 0 r2).bind fun pmo =>
  (expectChar '-' pmo.2).bind fun r4 =>
  (readNatAux 2 0 r4).bind fun pdd =>
  (expectChar 'T' pdd.2).bind fun r6 =>
  (readNatAux 2 0 r6).bind fun phr =>
  (expectChar ':' phr.2).bind fun r8 =>
  (readNatAux 2 0 r8).bind fun pmi =>
  (expectChar ':' pmi.2).bind fun r10 =>
  (readNatAux 2 0 r10).bind fun psec =>
  (parseFraction psec.2).bind fun pus =>
  finishIso py.1 pmo.1 pdd.1 phr.1 pmi.1 psec.1 pus

/-- state.py `SyncState` dataclass (14-23). -/
structure SyncState where
  last_full_sync : Option DateTime := none
  last_incremental_sync : Option DateTime := none
  last_tvmaze_page : Int := 0
  highest_tvmaze_id : Int := 0
  last_filter_hash : Option String := none
  last_updates_check : Option DateTime := none
deriving DecidableEq, Repr

/-- The flat JSON document written by `save` and read by `load` (the
`json.dump`/`json.load` round trip of a flat object of
strings/integers/nulls is the identity and is elided). -/
structure StateDoc where
  last_full_sync : Option String
  last_incremental_sync : Option String
  last_tvmaze_page : Int
  highest_tvmaze_id : Int
  last_filter_hash : Option String
  last_updates_check : Option String
deriving DecidableEq, Repr

/-- state.py `SyncState.to_dict` (116-125). -/
def SyncState.toDict (s : SyncState) : StateDoc :=
  { last_full_sync := s.last_full_sync.map DateTime.toIso
    last_incremental_sync := s.last_incremental_sync.map DateTime.toIso
    last_tvmaze_page := s.last_tvmaze_page
    highest_tvmaze_id := s.highest_tvmaze_id
    last_filter_hash := s.last_filter_hash
    last_updates_check := s.last_updates_check.map DateTime.toIso }

/-- The guarded parse of one datetime field in `from_dict` (131-150):
`if data.get(k):` (absent, `null` and `""` are falsy) then
`fromisoformat` with failures ignored. -/
def parseDocDatetime (o : Option String) : Option DateTime :=
  match o with
  | some str => if str = "" then none else DateTime.fromIso str
  | none => none

/-- state.py `SyncState.from_dict` (127-159). -/
def SyncState.fromDict (doc : StateDoc) : SyncState :=
  { last_full_sync := parseDocDatetime doc.last_full_sync
    last_incremental_sync := parseDocDatetime doc.last_incremental_sync
    last_tvmaze_page := doc.last_tvmaze_page
    highest_tvmaze_id := doc.highest_tvmaze_id
    last_filter_hash := doc.last_filter_hash
    last_updates_check := parseDocDatetime doc.last_updates_check }

/-- One datetime field check of `validate_state` (193-201): a present,
truthy value must parse. -/
def docDatetimeOk (o : Option String) : Bool :=
  match o with
  | some str => if str = "" then true else (DateTime.fromIso str).isSome
  | none => true

/-- state.py `validate_state` (162-203).  The required integer keys
`last_tvmaze_page` / `highest_tvmaze_id` are present and integer-typed in
every `StateDoc` by construction (they are never absent from a document
written by `save`); the datetime checks remain. -/
def validateState (doc : StateDoc) : Bool :=
  docDatetimeOk doc.last_full_sync &&
  docDatetimeOk doc.last_incremental_sync &&
  docDatetimeOk doc.last_updates_check

/-- state.py `SyncState.load` (25-68) over the documents on disk:
primary (`state.json`) first, then backup (`state.json.bak`), then a
fresh default.  `none` stands for a missing or unreadable file. -/
def loadState (primary backup : Option StateDoc) : SyncState :=
  match primary with
  | some doc =>
    if validateState doc then SyncState.fromDict doc
    else
      match backup with
      | some doc2 => if validateState doc2 then SyncState.fromDict doc2 else {}
      | none => {}
  | none =>
    match backup with
    | some doc2 => if validateState doc2 then SyncState.fromDict doc2 else {}
    | none => {}

/-! ## clients/tvmaze.py `TVMazeClient._request` (200-252)

The HTTP environment is a script: the list of successive transport
results the session produces, one per loop iteration.  The model returns
the sequence of `time.sleep` durations (seconds) performed inside the
loop together with the outcome. -/

/-- One transport result of `self.session.request`. -/
inductive Resp where
  | http (status : Nat) (retryAfter : Option Nat)
  | timeout
  | connError
deriving DecidableEq, Repr

/-- How `_request` ends. -/
inductive ReqOutcome where
  | response (status : Nat)
  | timeoutError
  | requestError
  | rateLimitExceeded
  | noResponse
deriving DecidableEq, Repr

/-- The `for attempt in range(max_retries + 1)` loop of `_request`
(217-251), entered at loop index `attempt`:
* HTTP 429: sleep `int(headers.get("Retry-After", 10))` and `continue` —
  note that `continue` advances `attempt`;
* HTTP 5xx with `attempt < max_retries`: sleep `2 ** attempt` and
  `continue`; on the last attempt the response is returned to the caller;
* `requests.Timeout` with `attempt >= max_retries`: re-raise; otherwise
  sleep `2 ** attempt` and loop;
* any other `requests.RequestException`: re-raise;
* any other response: return it.
Falling off the loop raises `TVMazeRateLimitError` (252).
`noResponse` marks exhaustion of the environment script and is
unreachable when the script covers all iterations. -/
def reqLoop (maxRetries attempt : Nat) (rs : List Resp) : List Nat × ReqOutcome :=
  if attempt ≥ maxRetries + 1 then ([], ReqOutcome.rateLimitExceeded)
  else
    match rs with
    | [] => ([], ReqOutcome.noResponse)
    | r :: rest =>
      match r with
      | Resp.http status retryAfter =>
        if status = 429 then
          let out := reqLoop maxRetries (attempt + 1) rest
          (retryAfter.getD 10 :: out.1, out.2)
        else if 500 ≤ status ∧ status < 600 then
          if attempt < maxRetries then
            let out := reqLoop maxRetries (attempt + 1) rest
            (2 ^ attempt :: out.1, out.2)
          else ([], ReqOutcome.response status)
        else ([], ReqOutcome.response status)
      | Resp.timeout =>
        if attempt ≥ maxRetries then ([], ReqOutcome.timeoutError)
        else
          let out := reqLoop maxRetries (attempt + 1) rest
          (2 ^ attempt :: out.1, out.2)
      | Resp.connError => ([], ReqOutcome.requestError)
termination_by maxRetries + 1 - attempt
decreasing_by all_goals omega

/-- `_request` with its default `max_retries = 3`-style budget, started
at attempt 0. -/
def request (maxRetries : Nat) (rs : List Resp) : List Nat × ReqOutcome :=
  reqLoop maxRetries 0 rs

/-! ## clients/tvmaze.py `RateLimiter` (34-95)

Timestamps are rationals (`time.time()` floats ordered by value); the
FIFO deque is a list, oldest first.  `time.sleep(x)` is modelled as
advancing the clock by exactly `x`, so `acquire` maps the pre-call deque
and call instant to the post-call deque and the slept duration. -/

/-- The expiry sweep `while self._timestamps and self._timestamps[0] <
cutoff: popleft()`. -/
def expire (window now : ℚ) (ts : List ℚ) : List ℚ :=
  ts.dropWhile fun t => decide (t < now - window)

/-- `RateLimiter.acquire` (43-71): returns the new deque and the seconds
slept.  With `max_requests = 0` and an empty deque Python would raise
`IndexError` at `self._timestamps[0]`; the `[]` arm is unreachable for
`max_requests ≥ 1`. -/
def acquire (maxRequests : Nat) (window : ℚ) (ts : List ℚ) (now : ℚ) :
    List ℚ × ℚ :=
  let q1 := expire window now ts
  if q1.length ≥ maxRequests then
    match q1 with
    | [] => (q1 ++ [now], 0)
    | t0 :: _ =>
      let sleepTime := t0 + window - now
      if sleepTime > 0 then
        let now2 := now + sleepTime
        (expire window now2 q1 ++ [now2], sleepTime)
      else (q1 ++ [now], 0)
  else (q1 ++ [now], 0)

/-- `RateLimiter.wait_time` (81-95): seconds until the next acquisition
would succeed (`0` if immediately). -/
def waitTime (maxRequests : Nat) (window : ℚ) (ts : List ℚ) (now : ℚ) : ℚ :=
  let q1 := expire window now ts
  if q1.length ≥ maxRequests then
    match q1 with
    | [] => 0
    | t0 :: _ => max 0 (t0 + window - now)
  else 0

/-! ## main.py `retry_pending_tvdb` (446-494), per-show body

For one show returned by `get_shows_for_retry`: re-fetch from TVMaze,
copy `pending_since` / `retry_count` / `last_checked` onto the fresh
`Show`, upsert, then dispatch on the refreshed `tvdb_id`.  `Show` objects
coming out of `Show.from_db_row` are plain dataclass instances, so the
read `show.pending_since` on line 474 is an attribute access
(`Show.getattrPendingSince`).  The `process_single_show` dispatch of the
`tvdb_id`-present branch involves the Sonarr client and is out of scope;
the returned flag records which branch was taken. -/

def retryShowStep (db : List Row) (cachedShow : Show) (fetched : TMRecord)
    (now retryDelay : Int) : Except String (List Row × Bool) := do
  let updatedShow0 ← fromTvmazeResponse fetched now      -- tvmaze.get_show + parse (470-471)
  let _ps ← cachedShow.getattrPendingSince               -- `show.pending_since` (474)
  let updatedShow := { updatedShow0 with                 -- (474-476)
    retry_count := cachedShow.retry_count
    last_checked := some now }
  let db1 := upsertShow db updatedShow                   -- (477)
  match updatedShow.tvdb_id with
  | some _ =>
    let db2 := incrementRetryCount db1 cachedShow.tvmaze_id   -- (482)
    Except.ok (db2, true)                                -- process_single_show (483)
  | none =>
    let db2 := incrementRetryCount db1 cachedShow.tvmaze_id   -- (486)
    let db3 := markShowPendingTvdb db2 cachedShow.tvmaze_id (now + retryDelay) now  -- (487-488)
    Except.ok (db3, false)

/-- The enclosing `except Exception` handler (493-494): a raised
exception is logged and the loop moves on, leaving the database as it
was. -/
def retryShowIteration (db : List Row) (cachedShow : Show) (fetched : TMRecord)
    (now retryDelay : Int) : List Row :=
  match retryShowStep db cachedShow fetched now retryDelay with
  | Except.ok (db', _) => db'
  | Except.error _ => db

/-- `List.find?` by primary key: the row a `SELECT ... WHERE tvmaze_id`
returns. -/
def getRow (db : List Row) (id : Int) : Option Row :=
  db.find? fun r => r.tvmaze_id == id

/-! ## Statement-side definitions -/

/-- The per-show effect of one `re_evaluate_filtered_shows` pass, as the
specification describes it: a cached `FILTERED` show now decided `ADD`
moves to `PENDING`; one still decided `FILTER` under a different reason
has `filter_reason` rewritten in place (the stored form is
`"category: reason"`); every other show is untouched. -/
def reEvalTransform (cfg : FiltersConfig) (s : Show) : Show :=
  if s.processing_status = ProcessingStatus.FILTERED then
    match (process cfg s).toOption with
    | some res =>
      match res.decision with
      | Decision.ADD => { s with processing_status := ProcessingStatus.PENDING }
      | Decision.FILTER =>
        if res.reason ≠ s.filter_reason then
          { s with
            processing_status := ProcessingStatus.FILTERED
            filter_reason :=
              some ((res.filter_category.getD "") ++ ": " ++ (res.reason.getD ""))
            sonarr_series_id := none
            error_message := none }
        else s
      | _ => s
    | none => s
  else s

/-- Two selections equal up to reordering of their list constraints. -/
def SelectionEquiv (a b : Selection) : Prop :=
  a.name = b.name ∧ a.languages.Perm b.languages ∧ a.countries.Perm b.countries ∧
  a.genres.Perm b.genres ∧ a.types.Perm b.types ∧ a.networks.Perm b.networks ∧
  a.status.Perm b.status ∧ a.premiered = b.premiered ∧ a.ended = b.ended ∧
  a.rating = b.rating ∧ a.runtime = b.runtime

instance (a b : Selection) : Decidable (SelectionEquiv a b) := by
  unfold SelectionEquiv; exact inferInstance

/-- Selection lists pointwise equivalent (same order, same length). -/
def SelectionsEquiv : List Selection → List Selection → Prop
  | [], [] => True
  | a :: as, b :: bs => SelectionEquiv a b ∧ SelectionsEquiv as bs
  | _, _ => False

instance instDecSelectionsEquiv : (as bs : List Selection) → Decidable (SelectionsEquiv as bs)
  | [], [] => Decidable.isTrue trivial
  | [], _ :: _ => Decidable.isFalse fun h => h
  | _ :: _, [] => Decidable.isFalse fun h => h
  | _ :: as, _ :: bs =>
    @instDecidableAnd _ _ _ (instDecSelectionsEquiv as bs)

/-- Two filter configurations equal up to reordering of the elements of
their list constraints. -/
def ConfigEquiv (c d : FiltersConfig) : Prop :=
  c.exclude.genres.Perm d.exclude.genres ∧ c.exclude.types.Perm d.exclude.types ∧
  c.exclude.languages.Perm d.exclude.languages ∧
  c.exclude.countries.Perm d.exclude.countries ∧
  c.exclude.networks.Perm d.exclude.networks ∧
  SelectionsEquiv c.selections d.selections

instance (c d : FiltersConfig) : Decidable (ConfigEquiv c d) := by
  unfold ConfigEquiv; exact inferInstance

/-! # Claims -/

/-- C1.  The claim says the retry pass re-fetches each show returned by
`get_shows_for_retry`, upserts it with `pending_since` and `retry_count`
preserved, increments `retry_count` and then processes or reschedules it.
The code cannot do any of this: the per-show body first evaluates
`show.pending_since` (main.py 474) on a `Show` dataclass instance that
has no `pending_since` field, so every iteration raises `AttributeError`,
which the per-show handler (main.py 493-494) swallows, leaving the
database untouched — here evaluated on a cached `pending_tvdb` row that
`get_shows_for_retry` does return, and whose re-fetch now carries a TVDB
id. -/
theorem claim_C1_retry_pass_attribute_error :
    let cached : Show :=
      { tvmaze_id := 42, title := "Y",
        processing_status := ProcessingStatus.PENDING_TVDB,
        retry_after := some 50, error_message := some "No TVDB ID available" }
    let db := markShowPendingTvdb (upsertShow [] cached) 42 50 10
    let fetched : TMRecord :=
      { id := some 42, name := some "Y", externals := some { thetvdb := some 300 } }
    getShowsForRetry db 100 1000 = db ∧
    retryShowStep db cached fetched 100 5 =
      Except.error "AttributeError: pending_since" ∧
    retryShowIteration db cached fetched 100 5 = db :=
  ⟨rfl, rfl, rfl⟩

/-- C2.  The claim says `pending_since` is set once on first entry into
`pending_tvdb` and preserved by every later upsert-then-mark sequence
while the show stays in that status.  The code violates this:
`Show.to_db_dict` has no `pending_since` key, so the `INSERT OR REPLACE`
of `upsert_show` resets the column to `NULL`, and the subsequent
`mark_show_pending_tvdb` finds `COALESCE(NULL, now)` and stamps the
current time — the row below enters `pending_tvdb` at time 100, is
re-observed (upserted and re-marked) at time 200 without ever leaving the
status, and ends with `pending_since = 200`. -/
theorem claim_C2_pending_since_advanced :
    let s7 : Show := { tvmaze_id := 7, title := "X" }
    let db1 := markShowPendingTvdb (upsertShow [] s7) 7 110 100
    let db2 := upsertShow db1 s7
    let db3 := markShowPendingTvdb db2 7 210 200
    (getRow db1 7).map (·.pending_since) = some (some 100) ∧
    (getRow db1 7).map (·.processing_status) = some ProcessingStatus.PENDING_TVDB ∧
    (getRow db2 7).map (·.pending_since) = some none ∧
    (getRow db3 7).map (·.pending_since) = some (some 200) ∧
    (getRow db3 7).map (·.processing_status) = some ProcessingStatus.PENDING_TVDB ∧
    (200 : Int) ≠ 100 :=
  ⟨rfl, rfl, rfl, rfl, rfl, by decide⟩

/-- C4 counterexample.  The claim as stated fails twice on the code: with
an empty selections list, a show matching a global exclude is filtered
with the exclude reason (the exclude check of `process` runs before the
empty-selections check), and the reason string for the remaining shows is
`"No selections configured"`, not the claimed `"no selections
configured"`. -/
theorem claim_C4_counterexample :
    let cfg : FiltersConfig := { exclude := { types := ["Scripted"] }, selections := [] }
    let sA : Show := { tvmaze_id := 1, title := "A", tvdb_id := some 100,
                       type := some "Scripted" }
    let sB : Show := { tvmaze_id := 2, title := "B", tvdb_id := some 200 }
    process cfg sA = Except.ok
      { decision := Decision.FILTER, reason := some "Excluded type: Scripted",
        filter_category := some "exclude" } ∧
    process cfg sB = Except.ok
      { decision := Decision.FILTER, reason := some "No selections configured",
        filter_category := some "selection" } ∧
    some "Excluded type: Scripted" ≠ some "no selections configured" ∧
    some "No selections configured" ≠ some "no selections configured" :=
  ⟨rfl, rfl, by decide, by decide⟩

/-- C4 (amended).  When the configured selections list is empty, every
show with a non-null TVDB id **that matches no global exclude** is
filtered with reason `"No selections configured"` and category
`"selection"`. -/
theorem claim_C4_empty_selections (cfg : FiltersConfig) (s : Show)
    (hsel : cfg.selections = []) (htvdb : s.tvdb_id.isSome = true)
    (hexc : matchesExclude cfg.exclude s = none) :
    process cfg s = Except.ok
      { decision := Decision.FILTER, reason := some "No selections configured",
        filter_category := some "selection" } := by
  cases hid : s.tvdb_id with
  | none => rw [hid] at htvdb; simp at htvdb
  | some v => simp [process, hid, hexc, hsel]

/-- C4 witness. -/
theorem claim_C4_witness :
    process { selections := [] } { tvmaze_id := 9, title := "W", tvdb_id := some 5 } =
      Except.ok
        { decision := Decision.FILTER, reason := some "No selections configured",
          filter_category := some "selection" } :=
  claim_C4_empty_selections { selections := [] }
    { tvmaze_id := 9, title := "W", tvdb_id := some 5 } rfl rfl rfl

/-- C5 counterexample.  The claim says a 429 response is retried
"without consuming one of the retry attempts", so that 429s never reduce
the 5xx/timeout retry budget.  In the code the 429 arm's `continue`
advances the `for attempt in range(max_retries + 1)` loop variable: after
one 429 (slept 10 s by default) only three loop slots remain, so the
third 5xx is returned instead of being retried against the final 200;
and four consecutive 429s exhaust the whole budget and raise
`TVMazeRateLimitError` without the 200 ever being reached. -/
theorem claim_C5_counterexample :
    request 3 [Resp.http 429 none, Resp.http 500 none, Resp.http 500 none,
               Resp.http 500 none, Resp.http 200 none] =
      ([10, 2, 4], ReqOutcome.response 500) ∧
    request 3 [Resp.http 429 none, Resp.http 429 none, Resp.http 429 none,
               Resp.http 429 none, Resp.http 200 none] =
      ([10, 10, 10, 10], ReqOutcome.rateLimitExceeded) ∧
    ReqOutcome.response 500 ≠ ReqOutcome.response 200 ∧
    ReqOutcome.rateLimitExceeded ≠ ReqOutcome.response 200 := by
  refine ⟨?_, ?_, by decide, by decide⟩ <;> simp [request, reqLoop]

/-- C5 (amended).  On HTTP 429 the client sleeps `Retry-After` seconds
(default 10) and retries, but the retry consumes one of the
`max_retries + 1` loop attempts shared with the 5xx/timeout budget. -/
theorem claim_C5_429_consumes_attempt (ra : Option Nat) (rest : List Resp)
    (attempt maxR : Nat) (h : attempt ≤ maxR) :
    reqLoop maxR attempt (Resp.http 429 ra :: rest) =
      (ra.getD 10 :: (reqLoop maxR (attempt + 1) rest).1,
       (reqLoop maxR (attempt + 1) rest).2) := by
  have h2 : ¬ attempt ≥ maxR + 1 := by omega
  rw [reqLoop]
  simp [h2]

/-- C5 witness. -/
theorem claim_C5_witness :
    reqLoop 3 0 [Resp.http 429 (some 7), Resp.http 200 none] =
      (7 :: (reqLoop 3 1 [Resp.http 200 none]).1,
       (reqLoop 3 1 [Resp.http 200 none]).2) :=
  claim_C5_429_consumes_attempt (some 7) [Resp.http 200 none] 0 3 (by decide)

/-- C6.  A cached `pending_tvdb` row with
`pending_since + abandon_after ≤ now` is returned by
`get_shows_to_abandon`, is not returned by `get_shows_for_retry`, and the
two query results are disjoint. -/
theorem claim_C6_abandon_retry_disjoint (db : List Row) (now ab p : Int)
    (r : Row) (hmem : r ∈ db)
    (hst : r.processing_status = ProcessingStatus.PENDING_TVDB)
    (hps : r.pending_since = some p) (hexp : p + ab ≤ now) :
    r ∈ getShowsToAbandon db now ab ∧
    r ∉ getShowsForRetry db now ab ∧
    ∀ x ∈ getShowsToAbandon db now ab, x ∉ getShowsForRetry db now ab := by
  have hdisj : ∀ x ∈ getShowsToAbandon db now ab, x ∉ getShowsForRetry db now ab := by
    intro x hx hx'
    simp only [getShowsToAbandon, List.mem_filter, Bool.and_eq_true] at hx
    simp only [getShowsForRetry, List.mem_filter, Bool.and_eq_true] at hx'
    obtain ⟨-, -, hb⟩ := hx
    obtain ⟨-, -, hb'⟩ := hx'
    cases hq : x.pending_since with
    | none => rw [hq] at hb; simp at hb
    | some q =>
      rw [hq] at hb hb'
      simp only [decide_eq_true_eq] at hb hb'
      omega
  have habandon : r ∈ getShowsToAbandon db now ab := by
    simp only [getShowsToAbandon, List.mem_filter, Bool.and_eq_true]
    refine ⟨hmem, ?_, ?_⟩
    · simp [hst, ProcessingStatus.PENDING_TVDB]
    · rw [hps]
      simp only [decide_eq_true_eq]
      omega
  exact ⟨habandon, hdisj r habandon, hdisj⟩

/-! ### Fixed-width decimal round trip (for C8) -/

theorem mod_pow_decomp (n w : Nat) :
    n % 10 ^ (w + 1) = 10 ^ w * (n / 10 ^ w % 10) + n % 10 ^ w := by
  have h1 : n % (10 ^ w * 10) % 10 ^ w = n % 10 ^ w :=
    Nat.mod_mod_of_dvd n ⟨10, rfl⟩
  have h2 : n % (10 ^ w * 10) / 10 ^ w = n / 10 ^ w % 10 :=
    Nat.mod_mul_right_div_self n (10 ^ w) 10
  rw [pow_succ]
  calc n % (10 ^ w * 10)
      = 10 ^ w * (n % (10 ^ w * 10) / 10 ^ w) + n % (10 ^ w * 10) % 10 ^ w :=
        (Nat.div_add_mod _ _).symm
    _ = 10 ^ w * (n / 10 ^ w % 10) + n % 10 ^ w := by rw [h2, h1]

theorem readNat_emitNat (w : Nat) :
    ∀ (acc n : Nat) (rest : List Char),
      readNatAux w acc (emitNat w n ++ rest) = some (acc * 10 ^ w + n % 10 ^ w, rest) := by
  induction w with
  | zero => intro acc n rest; simp [emitNat, readNatAux, Nat.mod_one]
  | succ w ih =>
    intro acc n rest
    have hd : n / 10 ^ w % 10 < 10 := Nat.mod_lt _ (by norm_num)
    have hchar : (Char.ofNat (48 + n / 10 ^ w % 10)).toNat = 48 + n / 10 ^ w % 10 := by
      have hten : ∀ m, m < 10 → (Char.ofNat (48 + m)).toNat = 48 + m := by decide
      exact hten _ hd
    simp only [emitNat, List.cons_append, readNatAux, hchar]
    rw [if_pos (by omega), ih]
    have hs : 48 + n / 10 ^ w % 10 - 48 = n / 10 ^ w % 10 := by omega
    rw [hs, mod_pow_decomp, pow_succ]
    congr 2
    ring

theorem readNat_emit0 (w n : Nat) (h : n < 10 ^ w) (rest : List Char) :
    readNatAux w 0 (emitNat w n ++ rest) = some (n, rest) := by
  rw [readNat_emitNat]
  simp [Nat.mod_eq_of_lt h]

theorem expectChar_cons (c : Char) (rest : List Char) :
    expectChar c (c :: rest) = some rest := by
  simp [expectChar]

theorem parseFraction_dot (rest : List Char) :
    parseFraction ('.' :: rest) = readNatAux 6 0 rest := rfl

theorem parseFraction_plus (rest : List Char) :
    parseFraction ('+' :: rest) = some (0, '+' :: rest) := rfl

theorem data_mk (l : List Char) : (String.mk l).data = l := rfl

theorem DateTime.fromIso_toIso (d : DateTime) :
    DateTime.fromIso d.toIso = some d := by
  obtain ⟨⟨y, hy⟩, ⟨mo, hmo⟩, ⟨dd, hdd⟩, ⟨hr, hhr⟩, ⟨mi, hmi⟩, ⟨sec, hsec⟩, ⟨us, hus⟩⟩ := d
  have hy' : y < 10 ^ 4 := by norm_num; omega
  have hmo' : mo < 10 ^ 2 := by norm_num; omega
  have hdd' : dd < 10 ^ 2 := by norm_num; omega
  have hhr' : hr < 10 ^ 2 := by norm_num; omega
  have hmi' : mi < 10 ^ 2 := by norm_num; omega
  have hsec' : sec < 10 ^ 2 := by norm_num; omega
  have hus' : us < 10 ^ 6 := by norm_num; omega
  unfold DateTime.toIso DateTime.fromIso
  rw [data_mk]
  by_cases h0 : us = 0
  · subst h0
    rw [if_pos rfl]
    rw [List.nil_append]
    rw [readNat_emit0 4 y hy']
    simp only [Option.some_bind]
    rw [expectChar_cons]
    simp only [Option.some_bind]
    rw [readNat_emit0 2 mo hmo']
    simp only [Option.some_bind]
    rw [expectChar_cons]
    simp only [Option.some_bind]
    rw [readNat_emit0 2 dd hdd']
    simp only [Option.some_bind]
    rw [expectChar_cons]
    simp only [Option.some_bind]
    rw [readNat_emit0 2 hr hhr']
    simp only [Option.some_bind]
    rw [expectChar_cons]
    simp only [Option.some_bind]
    rw [readNat_emit0 2 mi hmi']
    simp only [Option.some_bind]
    rw [expectChar_cons]
    simp only [Option.some_bind]
    rw [readNat_emit0 2 sec hsec']
    simp only [Option.some_bind]
    rw [parseFraction_plus]
    simp only [Option.some_bind]
    unfold finishIso
    rw [if_pos rfl]
    simp [mkDT, Nat.mod_eq_of_lt hy, Nat.mod_eq_of_lt hmo, Nat.mod_eq_of_lt hdd,
      Nat.mod_eq_of_lt hhr, Nat.mod_eq_of_lt hmi, Nat.mod_eq_of_lt hsec]
  · rw [if_neg h0]
    rw [List.cons_append]
    rw [readNat_emit0 4 y hy']
    simp only [Option.some_bind]
    rw [expectChar_cons]
    simp only [Option.some_bind]
    rw [readNat_emit0 2 mo hmo']
    simp only [Option.some_bind]
    rw [expectChar_cons]
    simp only [Option.some_bind]
    rw [readNat_emit0 2 dd hdd']
    simp only [Option.some_bind]
    rw [expectChar_cons]
    simp only [Option.some_bind]
    rw [readNat_emit0 2 hr hhr']
    simp only [Option.some_bind]
    rw [expectChar_cons]
    simp only [Option.some_bind]
    rw [readNat_emit0 2 mi hmi']
    simp only [Option.some_bind]
    rw [expectChar_cons]
    simp only [Option.some_bind]
    rw [readNat_emit0 2 sec hsec']
    simp only [Option.some_bind]
    rw [parseFraction_dot]
    rw [readNat_emit0 6 us hus']
    simp only [Option.some_bind]
    unfold finishIso
    rw [if_pos rfl]
    simp [mkDT, Nat.mod_eq_of_lt hy, Nat.mod_eq_of_lt hmo, Nat.mod_eq_of_lt hdd,
      Nat.mod_eq_of_lt hhr, Nat.mod_eq_of_lt hmi, Nat.mod_eq_of_lt hsec,
      Nat.mod_eq_of_lt hus]


theorem DateTime.toIso_ne_empty (d : DateTime) : d.toIso ≠ "" := by
  intro h
  have h2 := congrArg String.data h
  simp [DateTime.toIso, emitNat] at h2

theorem parseDocDatetime_roundtrip (o : Option DateTime) :
    parseDocDatetime (o.map DateTime.toIso) = o := by
  cases o with
  | none => rfl
  | some d =>
    simp only [Option.map_some', parseDocDatetime]
    rw [if_neg (DateTime.toIso_ne_empty d)]
    exact DateTime.fromIso_toIso d

theorem docDatetimeOk_map (o : Option DateTime) :
    docDatetimeOk (o.map DateTime.toIso) = true := by
  cases o with
  | none => rfl
  | some d =>
    simp only [Option.map_some', docDatetimeOk]
    rw [if_neg (DateTime.toIso_ne_empty d), DateTime.fromIso_toIso d]
    rfl

/-- C8.  Saving the operational state and loading it back returns a state
equal to the saved one in every field: the document `save` writes always
passes `validate_state`, and `from_dict` inverts `to_dict` — so `load`
takes its primary-file branch and reproduces `s`, whatever the backup
file holds. -/
theorem claim_C8_state_roundtrip (s : SyncState) (backup : Option StateDoc) :
    validateState (SyncState.toDict s) = true ∧
    loadState (some (SyncState.toDict s)) backup = s := by
  obtain ⟨lfs, lis, page, hid, hash, luc⟩ := s
  constructor
  · simp [validateState, SyncState.toDict, docDatetimeOk_map]
  · simp [loadState, validateState, SyncState.toDict, SyncState.fromDict,
      docDatetimeOk_map, parseDocDatetime_roundtrip]

/-- C6 witness. -/
theorem claim_C6_witness :
    let r0 : Row := { tvmaze_id := 1, title := "Z",
                      processing_status := ProcessingStatus.PENDING_TVDB,
                      retry_after := some 0, pending_since := some 0 }
    r0 ∈ getShowsToAbandon [r0] 10 5 ∧
    r0 ∉ getShowsForRetry [r0] 10 5 ∧
    ∀ x ∈ getShowsToAbandon [r0] 10 5, x ∉ getShowsForRetry [r0] 10 5 :=
  claim_C6_abandon_retry_disjoint [_] 10 5 0 _ (by simp) rfl rfl (by decide)

/-! ### Re-evaluation lemmas (for C3) -/

theorem reEvalTransform_tvmaze_id (cfg : FiltersConfig) (s : Show) :
    (reEvalTransform cfg s).tvmaze_id = s.tvmaze_id := by
  unfold reEvalTransform
  repeat' split
  all_goals rfl

theorem reEvalTransform_not_filtered (cfg : FiltersConfig) (s : Show)
    (hst : ¬ s.processing_status = ProcessingStatus.FILTERED) :
    reEvalTransform cfg s = s := by
  unfold reEvalTransform
  rw [if_neg hst]

theorem reEvalTransform_add (cfg : FiltersConfig) (s : Show)
    (rs rc : Option String)
    (hst : s.processing_status = ProcessingStatus.FILTERED)
    (hres : process cfg s = Except.ok ⟨Decision.ADD, rs, rc⟩) :
    reEvalTransform cfg s = { s with processing_status := ProcessingStatus.PENDING } := by
  unfold reEvalTransform
  rw [if_pos hst, hres]
  rfl

theorem reEvalTransform_filter_ne (cfg : FiltersConfig) (s : Show)
    (rs rc : Option String)
    (hst : s.processing_status = ProcessingStatus.FILTERED)
    (hres : process cfg s = Except.ok ⟨Decision.FILTER, rs, rc⟩)
    (hne : rs ≠ s.filter_reason) :
    reEvalTransform cfg s =
      { s with
        processing_status := ProcessingStatus.FILTERED
        filter_reason := some ((rc.getD "") ++ ": " ++ (rs.getD ""))
        sonarr_series_id := none
        error_message := none } := by
  unfold reEvalTransform
  rw [if_pos hst, hres]
  simp [Except.toOption, hne]

theorem reEvalTransform_filter_eq (cfg : FiltersConfig) (s : Show)
    (rs rc : Option String)
    (hst : s.processing_status = ProcessingStatus.FILTERED)
    (hres : process cfg s = Except.ok ⟨Decision.FILTER, rs, rc⟩)
    (heq : rs = s.filter_reason) :
    reEvalTransform cfg s = s := by
  unfold reEvalTransform
  rw [if_pos hst, hres]
  simp [Except.toOption, heq]

theorem reEvalTransform_other (cfg : FiltersConfig) (s : Show)
    (dec : Decision) (rs rc : Option String)
    (hst : s.processing_status = ProcessingStatus.FILTERED)
    (hres : process cfg s = Except.ok ⟨dec, rs, rc⟩)
    (hdec : dec = Decision.RETRY ∨ dec = Decision.SKIP) :
    reEvalTransform cfg s = s := by
  unfold reEvalTransform
  rw [if_pos hst, hres]
  rcases hdec with h | h <;> subst h <;> rfl

/-- The per-step shape of both cache updates issued by the
re-evaluation loop: a pointwise update keyed on one `tvmaze_id`,
agreeing with `reEvalTransform` on the rows it touches. -/
theorem map_step (cfg : FiltersConfig) (t : Show) (rest db : List Show)
    (gq : Show → Show)
    (hg_off : ∀ u, u.tvmaze_id ≠ t.tvmaze_id → gq u = u)
    (_hg_id : ∀ u, (gq u).tvmaze_id = u.tvmaze_id)
    (hg_on : ∀ u ∈ db, u.tvmaze_id = t.tvmaze_id → gq u = reEvalTransform cfg u)
    (hnotin : t.tvmaze_id ∉ rest.map (·.tvmaze_id)) :
    (db.map gq).map (fun u =>
        if u.tvmaze_id ∈ rest.map (·.tvmaze_id) then reEvalTransform cfg u else u) =
    db.map (fun u =>
        if u.tvmaze_id ∈ (t :: rest).map (·.tvmaze_id) then reEvalTransform cfg u
        else u) := by
  rw [List.map_map]
  apply List.map_congr_left
  intro u hu
  by_cases hid : u.tvmaze_id = t.tvmaze_id
  · have hgu : gq u = reEvalTransform cfg u := hg_on u hu hid
    have htid : (reEvalTransform cfg u).tvmaze_id = u.tvmaze_id :=
      reEvalTransform_tvmaze_id cfg u
    simp only [Function.comp_apply, hgu, htid, hid, List.map_cons, List.mem_cons]
    rw [if_neg (by simpa [hid] using hnotin)]
    simp
  · have hgu : gq u = u := hg_off u hid
    simp only [Function.comp_apply, hgu, List.map_cons, List.mem_cons]
    by_cases hmem : u.tvmaze_id ∈ rest.map (·.tvmaze_id)
    · rw [if_pos hmem, if_pos (Or.inr hmem)]
    · rw [if_neg hmem, if_neg (by simp [hid, hmem])]

/-- The fold of `re_evaluate_filtered_shows` over a snapshot of filtered
shows computes, row by row, exactly `reEvalTransform` on the snapshot's
ids. -/
theorem reEvaluateGo_spec (cfg : FiltersConfig) :
    ∀ (snap : List Show), ∀ (db : List Show) (changed : Nat),
      (∀ t ∈ snap, ∃ res, process cfg t = Except.ok res) →
      (∀ t ∈ snap, t.processing_status = ProcessingStatus.FILTERED) →
      ((snap.map (·.tvmaze_id)).Nodup) →
      (∀ t ∈ snap, ∀ u ∈ db, u.tvmaze_id = t.tvmaze_id → u = t) →
      ∃ n, reEvaluateGo cfg snap db changed =
        Except.ok (db.map fun u =>
          if u.tvmaze_id ∈ snap.map (·.tvmaze_id) then reEvalTransform cfg u else u, n) := by
  intro snap
  induction snap with
  | nil =>
    intro db changed _ _ _ _
    refine ⟨changed, ?_⟩
    simp [reEvaluateGo]
  | cons t rest ih =>
    intro db changed htot hfilt hnodup hsync
    obtain ⟨res, hres⟩ := htot t (List.mem_cons_self t rest)
    have hft : t.processing_status = ProcessingStatus.FILTERED :=
      hfilt t (List.mem_cons_self t rest)
    have hnotin : t.tvmaze_id ∉ rest.map (·.tvmaze_id) := by
      have := hnodup
      simp only [List.map_cons, List.nodup_cons] at this
      exact this.1
    have hnodup' : (rest.map (·.tvmaze_id)).Nodup := by
      have := hnodup
      simp only [List.map_cons, List.nodup_cons] at this
      exact this.2
    have htot' : ∀ t' ∈ rest, ∃ r, process cfg t' = Except.ok r :=
      fun t' h => htot t' (List.mem_cons_of_mem _ h)
    have hfilt' : ∀ t' ∈ rest, t'.processing_status = ProcessingStatus.FILTERED :=
      fun t' h => hfilt t' (List.mem_cons_of_mem _ h)
    -- the synchronisation hypothesis survives any id-preserving point update
    have hsync_step : ∀ (gq : Show → Show),
        (∀ u, u.tvmaze_id ≠ t.tvmaze_id → gq u = u) →
        (∀ u, (gq u).tvmaze_id = u.tvmaze_id) →
        ∀ t' ∈ rest, ∀ u ∈ db.map gq, u.tvmaze_id = t'.tvmaze_id → u = t' := by
      intro gq hg_off hg_id t' ht' u hu hid
      obtain ⟨u0, hu0, rfl⟩ := List.mem_map.mp hu
      have hid0 : u0.tvmaze_id = t'.tvmaze_id := by rw [← hg_id u0, hid]
      have hne0 : u0.tvmaze_id ≠ t.tvmaze_id := by
        rw [hid0]
        intro hcontra
        exact hnotin (hcontra ▸ List.mem_map_of_mem (·.tvmaze_id) ht')
      rw [hg_off u0 hne0]
      exact hsync t' (List.mem_cons_of_mem _ ht') u0 hu0 hid0
    rcases res with ⟨dec, rs, rc⟩
    cases dec with
    | ADD =>
      have hstep : reEvaluateGo cfg (t :: rest) db changed =
          reEvaluateGo cfg rest
            (updateStatusShows db t.tvmaze_id ProcessingStatus.PENDING) (changed + 1) := by
        simp only [reEvaluateGo]
        rw [hres]
        rfl
      rw [hstep]
      set gq : Show → Show := fun r =>
        if r.tvmaze_id = t.tvmaze_id then
          { r with processing_status := ProcessingStatus.PENDING } else r with hgq
      have hg_off : ∀ u, u.tvmaze_id ≠ t.tvmaze_id → gq u = u := by
        intro u h; simp [hgq, h]
      have hg_id : ∀ u, (gq u).tvmaze_id = u.tvmaze_id := by
        intro u; simp only [hgq]; split <;> rfl
      have hg_on : ∀ u ∈ db, u.tvmaze_id = t.tvmaze_id → gq u = reEvalTransform cfg u := by
        intro u hu hid
        have hut : u = t := hsync t (List.mem_cons_self t rest) u hu hid
        subst hut
        rw [reEvalTransform_add cfg u rs rc hft hres]
        simp [hgq]
      obtain ⟨n, hn⟩ := ih (db.map gq) (changed + 1) htot' hfilt' hnodup'
        (hsync_step gq hg_off hg_id)
      refine ⟨n, ?_⟩
      have : updateStatusShows db t.tvmaze_id ProcessingStatus.PENDING = db.map gq := rfl
      rw [this, hn, map_step cfg t rest db gq hg_off hg_id hg_on hnotin]
    | FILTER =>
      by_cases hrne : rs ≠ t.filter_reason
      · have hstep : reEvaluateGo cfg (t :: rest) db changed =
            reEvaluateGo cfg rest
              (markFilteredShows db t.tvmaze_id (rs.getD "") (rc.getD "")) changed := by
          simp only [reEvaluateGo]
          rw [hres]
          show (if rs ≠ t.filter_reason then
              reEvaluateGo cfg rest
                (markFilteredShows db t.tvmaze_id (rs.getD "") (rc.getD "")) changed
            else reEvaluateGo cfg rest db changed) = _
          rw [if_pos hrne]
        rw [hstep]
        set gq : Show → Show := fun r =>
          if r.tvmaze_id = t.tvmaze_id then
            { r with
              processing_status := ProcessingStatus.FILTERED
              filter_reason := some ((rc.getD "") ++ ": " ++ (rs.getD ""))
              sonarr_series_id := none
              error_message := none } else r with hgq
        have hg_off : ∀ u, u.tvmaze_id ≠ t.tvmaze_id → gq u = u := by
          intro u h; simp [hgq, h]
        have hg_id : ∀ u, (gq u).tvmaze_id = u.tvmaze_id := by
          intro u; simp only [hgq]; split <;> rfl
        have hg_on : ∀ u ∈ db, u.tvmaze_id = t.tvmaze_id → gq u = reEvalTransform cfg u := by
          intro u hu hid
          have hut : u = t := hsync t (List.mem_cons_self t rest) u hu hid
          subst hut
          rw [reEvalTransform_filter_ne cfg u rs rc hft hres hrne]
          simp [hgq]
        obtain ⟨n, hn⟩ := ih (db.map gq) changed htot' hfilt' hnodup'
          (hsync_step gq hg_off hg_id)
        refine ⟨n, ?_⟩
        have : markFilteredShows db t.tvmaze_id (rs.getD "") (rc.getD "") = db.map gq := rfl
        rw [this, hn, map_step cfg t rest db gq hg_off hg_id hg_on hnotin]
      · have hstep : reEvaluateGo cfg (t :: rest) db changed =
            reEvaluateGo cfg rest db changed := by
          simp only [reEvaluateGo]
          rw [hres]
          show (if rs ≠ t.filter_reason then
              reEvaluateGo cfg rest
                (markFilteredShows db t.tvmaze_id (rs.getD "") (rc.getD "")) changed
            else reEvaluateGo cfg rest db changed) = _
          rw [if_neg hrne]
        rw [hstep]
        have hg_on : ∀ u ∈ db, u.tvmaze_id = t.tvmaze_id → id u = reEvalTransform cfg u := by
          intro u hu hid
          have hut : u = t := hsync t (List.mem_cons_self t rest) u hu hid
          subst hut
          rw [reEvalTransform_filter_eq cfg u rs rc hft hres (not_not.mp hrne)]
          rfl
        obtain ⟨n, hn⟩ := ih db changed htot' hfilt' hnodup'
          (by
            have := hsync_step id (fun u _ => rfl) (fun u => rfl)
            simpa using this)
        refine ⟨n, ?_⟩
        rw [hn]
        have hmaps := map_step cfg t rest db id (fun u _ => rfl) (fun u => rfl) hg_on hnotin
        rw [List.map_id] at hmaps
        rw [hmaps]
    | RETRY =>
      have hstep : reEvaluateGo cfg (t :: rest) db changed =
          reEvaluateGo cfg rest db changed := by
        simp only [reEvaluateGo]
        rw [hres]
        rfl
      rw [hstep]
      have hg_on : ∀ u ∈ db, u.tvmaze_id = t.tvmaze_id → id u = reEvalTransform cfg u := by
        intro u hu hid
        have hut : u = t := hsync t (List.mem_cons_self t rest) u hu hid
        subst hut
        rw [reEvalTransform_other cfg u Decision.RETRY rs rc hft hres (Or.inl rfl)]
        rfl
      obtain ⟨n, hn⟩ := ih db changed htot' hfilt' hnodup'
        (by
          have := hsync_step id (fun u _ => rfl) (fun u => rfl)
          simpa using this)
      refine ⟨n, ?_⟩
      rw [hn]
      have hmaps := map_step cfg t rest db id (fun u _ => rfl) (fun u => rfl) hg_on hnotin
      rw [List.map_id] at hmaps
      rw [hmaps]
    | SKIP =>
      have hstep : reEvaluateGo cfg (t :: rest) db changed =
          reEvaluateGo cfg rest db changed := by
        simp only [reEvaluateGo]
        rw [hres]
        rfl
      rw [hstep]
      have hg_on : ∀ u ∈ db, u.tvmaze_id = t.tvmaze_id → id u = reEvalTransform cfg u := by
        intro u hu hid
        have hut : u = t := hsync t (List.mem_cons_self t rest) u hu hid
        subst hut
        rw [reEvalTransform_other cfg u Decision.SKIP rs rc hft hres (Or.inr rfl)]
        rfl
      obtain ⟨n, hn⟩ := ih db changed htot' hfilt' hnodup'
        (by
          have := hsync_step id (fun u _ => rfl) (fun u => rfl)
          simpa using this)
      refine ⟨n, ?_⟩
      rw [hn]
      have hmaps := map_step cfg t rest db id (fun u _ => rfl) (fun u => rfl) hg_on hnotin
      rw [List.map_id] at hmaps
      rw [hmaps]

/-! ### Filter-hash lemmas (for C7) -/

theorem sortStrings_perm {l l' : List String} (h : l.Perm l') :
    sortStrings l = sortStrings l' := by
  apply List.eq_of_perm_of_sorted
    ((List.perm_insertionSort _ l).trans (h.trans (List.perm_insertionSort _ l').symm))
    (List.sorted_insertionSort _ l) (List.sorted_insertionSort _ l')

theorem jsonSortedStrList_perm {l l' : List String} (h : l.Perm l') :
    jsonSortedStrList l = jsonSortedStrList l' := by
  unfold jsonSortedStrList
  rw [sortStrings_perm h]

theorem serializeSelection_equiv {a b : Selection} (h : SelectionEquiv a b) :
    serializeSelection a = serializeSelection b := by
  obtain ⟨hname, hlang, hcountry, hgenre, htype, hnet, hstat, hprem, hend, hrat, hrun⟩ := h
  unfold serializeSelection
  rw [hname, hprem, hend, hrat, hrun, jsonSortedStrList_perm hlang,
    jsonSortedStrList_perm hcountry, jsonSortedStrList_perm hgenre,
    jsonSortedStrList_perm htype, jsonSortedStrList_perm hnet,
    jsonSortedStrList_perm hstat]

theorem selectionsEquiv_map :
    ∀ as bs, SelectionsEquiv as bs →
      as.map serializeSelection = bs.map serializeSelection
  | [], [], _ => rfl
  | a :: as, b :: bs, h => by
    obtain ⟨h1, h2⟩ := h
    simp only [List.map_cons, serializeSelection_equiv h1,
      selectionsEquiv_map as bs h2]
  | [], _ :: _, h => h.elim
  | _ :: _, [], h => h.elim

theorem compress_length (hs w : List Nat) : (SHA256.compress hs w).length = 8 := rfl

theorem digest_length (msg : List Nat) : (SHA256.digest msg).length = 32 := by
  unfold SHA256.digest
  have hfold : ∀ (bs : List (List Nat)) (hs : List Nat), hs.length = 8 →
      (bs.foldl (fun h bl =>
        SHA256.compress h (SHA256.schedule (SHA256.wordsOfBlock bl))) hs).length = 8 := by
    intro bs
    induction bs with
    | nil => intro hs h; simpa using h
    | cons b bs ih => intro hs _; exact ih _ (compress_length _ _)
  have hflat : ∀ l : List Nat,
      ((l.map fun wd =>
        [wd >>> 24 % 256, wd >>> 16 % 256, wd >>> 8 % 256, wd % 256]).flatten).length =
      4 * l.length := by
    intro l
    induction l with
    | nil => simp
    | cons x xs ih => simp [ih]; ring
  rw [hflat, hfold _ SHA256.H0 (by rfl)]

theorem sha256HexChars_length (s : String) : (sha256HexChars s).length = 64 := by
  unfold sha256HexChars
  have hflat : ∀ bs : List Nat, ((bs.map hexByte).flatten).length = 2 * bs.length := by
    intro bs
    induction bs with
    | nil => simp
    | cons x xs ih => simp [ih, hexByte]; ring
  rw [hflat, digest_length]

theorem computeFilterHash_length (cfg : FiltersConfig) :
    (computeFilterHash cfg).length = 16 := by
  show ((sha256HexChars (canonicalFilterJson cfg)).take 16).length = 16
  rw [List.length_take, sha256HexChars_length]
  norm_num

/-- C3.  `check_filter_change`: with a null previous hash only the hash
is recorded and no show is re-evaluated; with a non-null previous hash
that differs from the current one, every cached `FILTERED` show is
reprocessed — per row exactly `reEvalTransform`: shows the processor now
decides `ADD` move to `PENDING`, shows still `FILTER`ed under a different
reason get `filter_reason` rewritten in place, everything else is
untouched — and the new hash is written into state.  The hypotheses say
the cache keys are unique (`tvmaze_id` is the primary key) and the
processor's date bounds parse, so `process` never raises. -/
theorem claim_C3_check_filter_change (cfg : FiltersConfig) (db : List Show)
    (h0 : String)
    (hproc : ∀ s ∈ db, ∃ res, process cfg s = Except.ok res)
    (hids : (db.map (·.tvmaze_id)).Nodup)
    (hne : h0 ≠ computeFilterHash cfg) :
    checkFilterChange none cfg db =
      Except.ok (some (computeFilterHash cfg), db, 0) ∧
    ∃ n, checkFilterChange (some h0) cfg db =
      Except.ok (some (computeFilterHash cfg), db.map (reEvalTransform cfg), n) := by
  constructor
  · rfl
  · have hsub : ∀ t ∈ db.filter (fun s =>
        s.processing_status == ProcessingStatus.FILTERED), t ∈ db :=
      fun t ht => (List.mem_filter.mp ht).1
    have htot : ∀ t ∈ db.filter (fun s =>
        s.processing_status == ProcessingStatus.FILTERED),
        ∃ res, process cfg t = Except.ok res :=
      fun t ht => hproc t (hsub t ht)
    have hfilt : ∀ t ∈ db.filter (fun s =>
        s.processing_status == ProcessingStatus.FILTERED),
        t.processing_status = ProcessingStatus.FILTERED := by
      intro t ht
      have := (List.mem_filter.mp ht).2
      simpa using this
    have hsnodup : ((db.filter (fun s =>
        s.processing_status == ProcessingStatus.FILTERED)).map (·.tvmaze_id)).Nodup :=
      List.Nodup.sublist (List.Sublist.map _ (List.filter_sublist db)) hids
    have hsync : ∀ t ∈ db.filter (fun s =>
        s.processing_status == ProcessingStatus.FILTERED),
        ∀ u ∈ db, u.tvmaze_id = t.tvmaze_id → u = t := by
      intro t ht u hu hid
      exact List.inj_on_of_nodup_map hids hu (hsub t ht) hid
    obtain ⟨n, hn⟩ := reEvaluateGo_spec cfg
      (db.filter (fun s => s.processing_status == ProcessingStatus.FILTERED))
      db 0 htot hfilt hsnodup hsync
    have hfinal : (db.map fun u =>
        if u.tvmaze_id ∈ (db.filter (fun s =>
          s.processing_status == ProcessingStatus.FILTERED)).map (·.tvmaze_id)
        then reEvalTransform cfg u else u) = db.map (reEvalTransform cfg) := by
      apply List.map_congr_left
      intro u hu
      by_cases hf : u.processing_status = ProcessingStatus.FILTERED
      · have hmem : u ∈ db.filter (fun s =>
            s.processing_status == ProcessingStatus.FILTERED) :=
          List.mem_filter.mpr ⟨hu, by simp [hf]⟩
        rw [if_pos (List.mem_map_of_mem _ hmem)]
      · have hnm : u.tvmaze_id ∉ (db.filter (fun s =>
            s.processing_status == ProcessingStatus.FILTERED)).map (·.tvmaze_id) := by
          intro hcontra
          obtain ⟨t, ht, hid⟩ := List.mem_map.mp hcontra
          have hut : u = t := hsync t ht u hu hid.symm
          exact hf (hut ▸ hfilt t ht)
        rw [if_neg hnm, reEvalTransform_not_filtered cfg u hf]
    refine ⟨n, ?_⟩
    have hre : reEvaluateFilteredShows cfg db =
        Except.ok (db.map (reEvalTransform cfg), n) := by
      show reEvaluateGo cfg
        (db.filter (fun s => s.processing_status == ProcessingStatus.FILTERED)) db 0 =
        Except.ok (db.map (reEvalTransform cfg), n)
      rw [hn, hfinal]
    simp only [checkFilterChange]
    rw [if_pos hne, hre]
    rfl

/-- C3 witness: a one-row cache holding a `FILTERED` show, re-evaluated
against an empty configuration whose hash differs from the stored `""`. -/
theorem claim_C3_witness :
    checkFilterChange none {}
        [{ tvmaze_id := 4, title := "F", tvdb_id := some 9,
           processing_status := ProcessingStatus.FILTERED,
           filter_reason := some "selection: No selection matched" }] =
      Except.ok (some (computeFilterHash {}),
        [{ tvmaze_id := 4, title := "F", tvdb_id := some 9,
           processing_status := ProcessingStatus.FILTERED,
           filter_reason := some "selection: No selection matched" }], 0) ∧
    ∃ n, checkFilterChange (some "") {}
        [{ tvmaze_id := 4, title := "F", tvdb_id := some 9,
           processing_status := ProcessingStatus.FILTERED,
           filter_reason := some "selection: No selection matched" }] =
      Except.ok (some (computeFilterHash {}),
        [{ tvmaze_id := 4, title := "F", tvdb_id := some 9,
           processing_status := ProcessingStatus.FILTERED,
           filter_reason := some "selection: No selection matched" }].map
          (reEvalTransform {}), n) :=
  claim_C3_check_filter_change {} _ ""
    (by
      intro s hs
      rw [List.mem_singleton] at hs
      subst hs
      exact ⟨_, rfl⟩)
    (by decide)
    (by
      intro h
      have hlen := computeFilterHash_length {}
      rw [← h] at hlen
      simp at hlen)

/-- C7.  `compute_filter_hash` is the 16-hex-character prefix of the
SHA-256 of the canonical (sorted keys, sorted list constraints) JSON
serialization, so any two filter configurations equal up to reordering of
the elements of their list constraints hash identically. -/
theorem claim_C7_filter_hash_invariance (c d : FiltersConfig)
    (h : ConfigEquiv c d) :
    computeFilterHash c = computeFilterHash d ∧
    (computeFilterHash c).length = 16 := by
  obtain ⟨hg, ht, hl, hc, hn, hsel⟩ := h
  have hjson : canonicalFilterJson c = canonicalFilterJson d := by
    unfold canonicalFilterJson serializeExclude
    rw [jsonSortedStrList_perm hg, jsonSortedStrList_perm ht,
      jsonSortedStrList_perm hl, jsonSortedStrList_perm hc,
      jsonSortedStrList_perm hn, selectionsEquiv_map _ _ hsel]
  exact ⟨by unfold computeFilterHash; rw [hjson], computeFilterHash_length c⟩

/-- C7 witness: two configurations differing only in the order of their
genre exclude list and a selection's language list. -/
theorem claim_C7_witness :
    computeFilterHash
        { exclude := { genres := ["Drama", "Anime"] },
          selections := [{ name := some "x", languages := ["b", "a"] }] } =
      computeFilterHash
        { exclude := { genres := ["Anime", "Drama"] },
          selections := [{ name := some "x", languages := ["a", "b"] }] } ∧
    (computeFilterHash
        { exclude := { genres := ["Drama", "Anime"] },
          selections := [{ name := some "x", languages := ["b", "a"] }] }).length = 16 :=
  claim_C7_filter_hash_invariance _ _ (by decide)

/-- C9.  Sliding-window rate limiter: (a) with the post-expiry deque at
capacity, `acquire` sleeps exactly `max 0 (oldest + window - now)`, which
is at least `window - (now - oldest)`, and a positive sleep ends exactly
when the oldest timestamp leaves the window; (b) once a full window has
elapsed past every recorded timestamp, an acquisition proceeds
immediately; (c) `wait_time()` returns 0 exactly when `acquire` would not
block. -/
theorem claim_C9_rate_limiter (maxRequests : Nat) (window : ℚ) (ts : List ℚ)
    (now : ℚ) (hmax : 1 ≤ maxRequests) :
    (∀ t0 rest, expire window now ts = t0 :: rest →
       maxRequests ≤ (t0 :: rest).length →
         (acquire maxRequests window ts now).2 = max 0 (t0 + window - now) ∧
         window - (now - t0) ≤ (acquire maxRequests window ts now).2 ∧
         (0 < (acquire maxRequests window ts now).2 →
           now + (acquire maxRequests window ts now).2 = t0 + window)) ∧
    ((∀ t ∈ ts, t + window ≤ now) → (acquire maxRequests window ts now).2 = 0) ∧
    (waitTime maxRequests window ts now = 0 ↔
      (acquire maxRequests window ts now).2 = 0) := by
  refine ⟨?_, ?_, ?_⟩
  · intro t0 rest hq hlen
    have hfull : (acquire maxRequests window ts now).2 =
        if 0 < t0 + window - now then t0 + window - now else 0 := by
      simp only [acquire, hq]
      rw [if_pos hlen]
      by_cases hpos : 0 < t0 + window - now
      · rw [if_pos hpos, if_pos hpos]
      · rw [if_neg hpos, if_neg hpos]
    by_cases hpos : 0 < t0 + window - now
    · rw [hfull, if_pos hpos]
      refine ⟨(max_eq_right (le_of_lt hpos)).symm, by linarith, fun _ => by ring⟩
    · rw [hfull, if_neg hpos]
      refine ⟨(max_eq_left (by linarith)).symm, by linarith, fun h => absurd h (by linarith)⟩
  · intro hall
    cases hq : expire window now ts with
    | nil =>
      have : ¬ ([] : List ℚ).length ≥ maxRequests := by simp; omega
      simp only [acquire, hq]
      rw [if_neg this]
    | cons t0 rest =>
      have ht0 : t0 ∈ ts := (List.dropWhile_sublist _).subset (hq ▸ List.mem_cons_self t0 rest)
      have hle : t0 + window - now ≤ 0 := by have := hall t0 ht0; linarith
      simp only [acquire, hq]
      by_cases hl : (t0 :: rest).length ≥ maxRequests
      · rw [if_pos hl, if_neg (by linarith)]
      · rw [if_neg hl]
  · cases hq : expire window now ts with
    | nil =>
      have hno : ¬ ([] : List ℚ).length ≥ maxRequests := by simp; omega
      simp only [acquire, waitTime, hq]
      rw [if_neg hno, if_neg hno]
    | cons t0 rest =>
      by_cases hl : (t0 :: rest).length ≥ maxRequests
      · simp only [acquire, waitTime, hq]
        rw [if_pos hl, if_pos hl]
        by_cases hpos : 0 < t0 + window - now
        · rw [if_pos hpos, max_eq_right (le_of_lt hpos)]
        · rw [if_neg hpos, max_eq_left (by linarith)]
      · simp only [acquire, waitTime, hq]
        rw [if_neg hl, if_neg hl]

/-- C9 witness: two acquisitions at times 0 and 1 fill a 2-per-10-second
window; a third call at time 2 must sleep `max 0 (0 + 10 - 2) = 8`. -/
theorem claim_C9_witness :
    (acquire 2 10 [0, 1] 2).2 = max 0 (0 + 10 - 2) ∧
    10 - (2 - 0) ≤ (acquire 2 10 [0, 1] 2).2 ∧
    (0 < (acquire 2 10 [0, 1] 2).2 → 2 + (acquire 2 10 [0, 1] 2).2 = 0 + 10) :=
  (claim_C9_rate_limiter 2 10 [0, 1] 2 (by decide)).1 0 [1] (by norm_num [expire]) (by decide)

/-- C10 counterexample.  On a contract-shaped record with `id` present,
a present-but-empty `name` yields an empty title (refuting "title is
always non-empty"), and a present `network` without a country does not
stop the fallback: the country comes from `webChannel.country.code`,
where the claim's reading ("country is taken from `network.country.code`
when network is present") predicts a null country. -/
theorem claim_C10_counterexample :
    let rec0 : TMRecord :=
      { id := some 1, name := some "",
        network := some { name := some "N" },
        webChannel := some { country := some { code := some "US" } } }
    fromTvmazeResponse rec0 7 = Except.ok
      { tvmaze_id := 1, title := "", country := some "US",
        network := some "N", last_checked := some 7 } ∧
    (("" : String).length = 0) ∧
    rec0.network = some { name := some "N", country := none } :=
  ⟨rfl, rfl, rfl⟩

/-- C10 (amended).  `Show.from_tvmaze_response` is total on every
contract-shaped record whose `id` is present: it returns a `Show`; a
missing `name` yields title `"Unknown"` (a present name is used verbatim,
even when empty); the country comes from `network.country.code` when
`network` is present *with a truthy country*, else from
`webChannel.country.code` under the same proviso, else is null; and an
absent or unparsable `premiered`/`ended` string yields a null date. -/
theorem claim_C10_from_tvmaze_total (r : TMRecord) (now i : Int)
    (hid : r.id = some i) :
    ∃ s, fromTvmazeResponse r now = Except.ok s ∧
      s.tvmaze_id = i ∧
      s.title = r.name.getD "Unknown" ∧
      (r.name = none → s.title = "Unknown") ∧
      (∀ n c, r.network = some n → n.country = some c → s.country = c.code) ∧
      (tmCountryBranch r.network = none →
        ∀ w c, r.webChannel = some w → w.country = some c → s.country = c.code) ∧
      (tmCountryBranch r.network = none → tmCountryBranch r.webChannel = none →
        s.country = none) ∧
      (r.premiered = none → s.premiered = none) ∧
      (∀ str, r.premiered = some str → parseIsoDate str = none → s.premiered = none) ∧
      (r.ended = none → s.ended = none) ∧
      (∀ str, r.ended = some str → parseIsoDate str = none → s.ended = none) := by
  have hs : fromTvmazeResponse r now = Except.ok
      { tvmaze_id := i
        tvdb_id := (r.externals.getD {}).thetvdb
        imdb_id := (r.externals.getD {}).imdb
        title := r.name.getD "Unknown"
        language := r.language
        country :=
          match tmCountryBranch r.network with
          | some v => v
          | none =>
            match tmCountryBranch r.webChannel with
            | some v => v
            | none => none
        type := r.type
        status := r.status
        premiered := tmParseDate r.premiered
        ended := tmParseDate r.ended
        network := r.network.bind (·.name)
        web_channel := r.webChannel.bind (·.name)
        genres := r.genres.getD []
        runtime := r.runtime
        tvmaze_updated_at := r.updated
        last_checked := some now } := by
    simp only [fromTvmazeResponse, hid]
  refine ⟨_, hs, rfl, rfl, ?_, ?_, ?_, ?_, ?_, ?_, ?_, ?_⟩
  · intro hname; simp [hname]
  · intro n c hn hc
    simp [tmCountryBranch, hn, hc]
  · intro hb w c hw hc
    simp only [hb]
    simp [tmCountryBranch, hw, hc]
  · intro hb hb2
    simp only [hb, hb2]
  · intro hp; simp [tmParseDate, hp]
  · intro str hp hfail
    simp only [tmParseDate, hp]
    by_cases he : str = ""
    · rw [if_pos he]
    · rw [if_neg he, hfail]
  · intro hp; simp [tmParseDate, hp]
  · intro str hp hfail
    simp only [tmParseDate, hp]
    by_cases he : str = ""
    · rw [if_pos he]
    · rw [if_neg he, hfail]

/-- C10 witness. -/
theorem claim_C10_witness :
    ∃ s, fromTvmazeResponse { id := some 3 } 11 = Except.ok s ∧
      s.tvmaze_id = 3 ∧
      s.title = (none : Option String).getD "Unknown" ∧
      ((none : Option String) = none → s.title = "Unknown") ∧
      (∀ n c, (none : Option TMNetwork) = some n → n.country = some c →
        s.country = c.code) ∧
      (tmCountryBranch none = none →
        ∀ w c, (none : Option TMNetwork) = some w → w.country = some c →
          s.country = c.code) ∧
      (tmCountryBranch none = none → tmCountryBranch none = none →
        s.country = none) ∧
      ((none : Option String) = none → s.premiered = none) ∧
      (∀ str, (none : Option String) = some str → parseIsoDate str = none →
        s.premiered = none) ∧
      ((none : Option String) = none → s.ended = none) ∧
      (∀ str, (none : Option String) = some str → parseIsoDate str = none →
        s.ended = none) :=
  claim_C10_from_tvmaze_total { id := some 3 } 11 3 rfl

end TvmazeSync
